import Mathlib

/-!
# Crop overlay of the GIF editor

A shallow embedding of `src/gif-editor/crop.cpp`: the private data of the crop
overlay (`CropFramePrivate`), its geometry helpers, and the event handlers of
`CropFrame`, followed by theorems about them.

Conventions of the embedding.

* C++ `int` is `Int`; coordinates are screen coordinates, far from the limits
  of a machine word, so no wrap-around is modelled. C++ integer division is
  `Int.tdiv` (rounding toward zero).
* `QPoint` and `QRect` are the Qt 5 value classes. A `QRect` stores its two
  corners `x1, y1, x2, y2`, and `width = x2 - x1 + 1`.
* `qreal` is IEEE 754 binary64. `croppedQreal` rounds every quotient and
  product to the nearest `qreal`; `cropped` is its exact version, with the
  ratios and products taken in `ℚ`. The conversion `static_cast<int>`
  truncates toward zero in both. The two differ by at most one unit per
  coordinate (`croppedQreal_near_cropped`).
* The process-wide override cursor stack of `QApplication` is part of the
  state, together with two counters recording how often the widget called
  `setOverrideCursor` and `restoreOverrideCursor`.
* `update()`, `accept()`, `ignore()` and `setGeometry()` do not touch the
  modelled fields and are left out.
-/

namespace GifEditor

/-! ## Qt value classes -/

/-- Qt `QPoint`. -/
structure QPoint where
  x : Int
  y : Int
deriving DecidableEq

namespace QPoint

instance : Add QPoint := ⟨fun a b => ⟨a.x + b.x, a.y + b.y⟩⟩

instance : Sub QPoint := ⟨fun a b => ⟨a.x - b.x, a.y - b.y⟩⟩

/-- Qt `QPoint::setX`. -/
def setX (p : QPoint) (v : Int) : QPoint := { p with x := v }

/-- Qt `QPoint::setY`. -/
def setY (p : QPoint) (v : Int) : QPoint := { p with y := v }

end QPoint

/-- Qt `QRect`, stored as in Qt by its left, top, right and bottom coordinates. -/
structure QRect where
  x1 : Int
  y1 : Int
  x2 : Int
  y2 : Int
deriving DecidableEq

namespace QRect

/-- The default constructed `QRect()`: a null rect of width 0 and height 0. -/
def null : QRect := ⟨0, 0, -1, -1⟩

/-- The constructor `QRect( x, y, width, height )`. -/
def ofXYWH (x y w h : Int) : QRect := ⟨x, y, x + w - 1, y + h - 1⟩

/-- Qt `QRect::x`. -/
def x (r : QRect) : Int := r.x1

/-- Qt `QRect::y`. -/
def y (r : QRect) : Int := r.y1

/-- Qt `QRect::left`. -/
def left (r : QRect) : Int := r.x1

/-- Qt `QRect::top`. -/
def top (r : QRect) : Int := r.y1

/-- Qt `QRect::right`. -/
def right (r : QRect) : Int := r.x2

/-- Qt `QRect::bottom`. -/
def bottom (r : QRect) : Int := r.y2

/-- Qt `QRect::width`. -/
def width (r : QRect) : Int := r.x2 - r.x1 + 1

/-- Qt `QRect::height`. -/
def height (r : QRect) : Int := r.y2 - r.y1 + 1

/-- Qt `QRect::topLeft`. -/
def topLeft (r : QRect) : QPoint := ⟨r.x1, r.y1⟩

/-- Qt `QRect::bottomRight`. -/
def bottomRight (r : QRect) : QPoint := ⟨r.x2, r.y2⟩

/-- Qt `QRect::topRight`. -/
def topRight (r : QRect) : QPoint := ⟨r.x2, r.y1⟩

/-- Qt `QRect::bottomLeft`. -/
def bottomLeft (r : QRect) : QPoint := ⟨r.x1, r.y2⟩

/-- Qt `QRect::setLeft`. -/
def setLeft (r : QRect) (v : Int) : QRect := { r with x1 := v }

/-- Qt `QRect::setTop`. -/
def setTop (r : QRect) (v : Int) : QRect := { r with y1 := v }

/-- Qt `QRect::setRight`. -/
def setRight (r : QRect) (v : Int) : QRect := { r with x2 := v }

/-- Qt `QRect::setBottom`. -/
def setBottom (r : QRect) (v : Int) : QRect := { r with y2 := v }

/-- Qt `QRect::setTopLeft`. -/
def setTopLeft (r : QRect) (p : QPoint) : QRect := { r with x1 := p.x, y1 := p.y }

/-- Qt `QRect::setBottomRight`. -/
def setBottomRight (r : QRect) (p : QPoint) : QRect := { r with x2 := p.x, y2 := p.y }

/-- Qt `QRect::setTopRight`. -/
def setTopRight (r : QRect) (p : QPoint) : QRect := { r with x2 := p.x, y1 := p.y }

/-- Qt `QRect::setBottomLeft`. -/
def setBottomLeft (r : QRect) (p : QPoint) : QRect := { r with x1 := p.x, y2 := p.y }

/-- Qt `QRect::moveTo`: the top-left corner goes to `p`, the size is kept. -/
def moveTo (r : QRect) (p : QPoint) : QRect :=
  ⟨p.x, p.y, r.x2 + (p.x - r.x1), r.y2 + (p.y - r.y1)⟩

/-- Qt 5 `QRect::normalized`: on each axis the two coordinates are swapped
when the second lies more than one unit before the first. -/
def normalized (r : QRect) : QRect :=
  { x1 := if r.x2 < r.x1 - 1 then r.x2 else r.x1
    x2 := if r.x2 < r.x1 - 1 then r.x1 else r.x2
    y1 := if r.y2 < r.y1 - 1 then r.y2 else r.y1
    y2 := if r.y2 < r.y1 - 1 then r.y1 else r.y2 }

/-- Qt 5 `QRect::contains( const QPoint &, proper = false )`: edges count as
inside, and a rect of negative extent is read with its coordinates swapped. -/
def contains (r : QRect) (p : QPoint) : Bool :=
  let l := if r.x2 < r.x1 - 1 then r.x2 else r.x1
  let rr := if r.x2 < r.x1 - 1 then r.x1 else r.x2
  let t := if r.y2 < r.y1 - 1 then r.y2 else r.y1
  let b := if r.y2 < r.y1 - 1 then r.y1 else r.y2
  if p.x < l ∨ p.x > rr then false
  else if p.y < t ∨ p.y > b then false
  else true

end QRect

/-- Qt `qAbs` at type `int`: `t >= 0 ? t : -t`. -/
def qAbs (t : Int) : Int := if t ≥ 0 then t else -t

/-- Size of the handle to change geometry of selected region. -/
def c_handleSize : Int := 15

/-- The cursor shapes of `Qt::CursorShape` that the widget requests. -/
inductive CursorShape where
  | CrossCursor
  | SizeFDiagCursor
  | SizeBDiagCursor
  | SizeVerCursor
  | SizeHorCursor
  | SizeAllCursor
deriving DecidableEq

/-- The mouse buttons of `Qt::MouseButton` that an event can report. -/
inductive MouseButton where
  | LeftButton
  | RightButton
  | MiddleButton
deriving DecidableEq

/-- The override cursor stack of `QApplication`, with the number of calls of
`setOverrideCursor` and of `restoreOverrideCursor` made so far. -/
structure QApplication where
  cursors : List CursorShape
  setCalls : Nat
  restoreCalls : Nat
deriving DecidableEq

namespace QApplication

/-- Qt `QApplication::overrideCursor`: the top of the stack, if any. -/
def overrideCursor (a : QApplication) : Option CursorShape := a.cursors.head?

/-- Qt `QApplication::setOverrideCursor`: push a cursor. -/
def setOverrideCursor (a : QApplication) (c : CursorShape) : QApplication :=
  { a with cursors := c :: a.cursors, setCalls := a.setCalls + 1 }

/-- Qt `QApplication::restoreOverrideCursor`: pop the top cursor; on an empty
stack nothing is popped. -/
def restoreOverrideCursor (a : QApplication) : QApplication :=
  { a with cursors := a.cursors.tail, restoreCalls := a.restoreCalls + 1 }

end QApplication

/-! ## Arithmetic in `qreal` -/

/-- Round to the nearest integer, a tie going to the even one. -/
def roundTiesToEven (q : ℚ) : Int :=
  if q - ⌊q⌋ < 1 / 2 then ⌊q⌋
  else if 1 / 2 < q - ⌊q⌋ then ⌊q⌋ + 1
  else if ⌊q⌋ % 2 = 0 then ⌊q⌋ else ⌊q⌋ + 1

/-- The exponent of the last place of a binary64 number of the magnitude of `q`. -/
def lastPlace (q : ℚ) : Int := Int.log 2 |q| - 52

/-- The `qreal` nearest to `q`: rounding to 53 significant binary digits, a tie
going to the even significand, as IEEE 754 binary64 arithmetic rounds the
exact result of an operation. The exponent range is not bounded; the values
met by the theorems below are far from overflow and underflow. -/
def qreal (q : ℚ) : ℚ :=
  if q = 0 then 0 else (roundTiesToEven (q / 2 ^ lastPlace q) : ℚ) * 2 ^ lastPlace q

/-! ## CropFramePrivate -/

/-- The resize handles, `CropFramePrivate::Handle`. -/
inductive Handle where
  | Unknown
  | TopLeft
  | Top
  | TopRight
  | Right
  | BottomRight
  | Bottom
  | BottomLeft
  | Left
deriving DecidableEq

/-- The data members of `CropFramePrivate` that the handlers read and write. -/
structure CropFramePrivate where
  m_selected : QRect
  m_available : QRect
  m_mousePos : QPoint
  m_started : Bool
  m_nothing : Bool
  m_clicked : Bool
  m_hovered : Bool
  m_cursorOverriden : Bool
  m_handle : Handle
deriving DecidableEq

namespace CropFramePrivate

/-- The member initialisers of the constructor, with the assignment
`d->m_available = parent->imageRect()` made by the constructor of `CropFrame`. -/
def init (imageRect : QRect) : CropFramePrivate :=
  { m_selected := QRect.null
    m_available := imageRect
    m_mousePos := ⟨0, 0⟩
    m_started := false
    m_nothing := true
    m_clicked := false
    m_hovered := false
    m_cursorOverriden := false
    m_handle := Handle.Unknown }

/-- Bound point to available space. -/
def boundToAvailable (d : CropFramePrivate) (p : QPoint) : QPoint :=
  let ret := p
  let ret :=
    if p.x < d.m_available.x then ret.setX d.m_available.x
    else if p.x > d.m_available.x + d.m_available.width - 1 then
      ret.setX (d.m_available.x + d.m_available.width - 1)
    else ret
  let ret :=
    if p.y < d.m_available.y then ret.setY d.m_available.y
    else if p.y > d.m_available.y + d.m_available.height - 1 then
      ret.setY (d.m_available.y + d.m_available.height - 1)
    else ret
  ret

/-- Bound left top point to available space. -/
def boundLeftTopToAvailable (d : CropFramePrivate) (p : QPoint) : QPoint :=
  let ret := p
  let ret :=
    if p.x < d.m_available.x then ret.setX d.m_available.x
    else if p.x > d.m_available.x + d.m_available.width - d.m_selected.width - 1 then
      ret.setX (d.m_available.x + d.m_available.width - d.m_selected.width - 1)
    else ret
  let ret :=
    if p.y < d.m_available.y then ret.setY d.m_available.y
    else if p.y > d.m_available.y + d.m_available.height - d.m_selected.height - 1 then
      ret.setY (d.m_available.y + d.m_available.height - d.m_selected.height - 1)
    else ret
  ret

/-- Is handles should be outside selected rect. -/
def isHandleOutside (d : CropFramePrivate) : Bool :=
  decide (Int.tdiv (qAbs d.m_selected.width) 3 < c_handleSize + 1) ||
    decide (Int.tdiv (qAbs d.m_selected.height) 3 < c_handleSize + 1)

/-- Top-left handle rect. -/
def topLeftHandleRect (d : CropFramePrivate) : QRect :=
  if d.isHandleOutside then
    QRect.ofXYWH (d.m_selected.x - (if d.m_selected.width > 0 then c_handleSize else 0))
      (d.m_selected.y - (if d.m_selected.height > 0 then c_handleSize else 0))
      c_handleSize c_handleSize
  else
    QRect.ofXYWH (d.m_selected.x - (if d.m_selected.width > 0 then 0 else c_handleSize))
      (d.m_selected.y - (if d.m_selected.height > 0 then 0 else c_handleSize))
      c_handleSize c_handleSize

/-- Top-right handle rect. -/
def topRightHandleRect (d : CropFramePrivate) : QRect :=
  if d.isHandleOutside then
    QRect.ofXYWH (d.m_selected.x + d.m_selected.width - 1 -
        (if d.m_selected.width > 0 then 0 else c_handleSize))
      (d.m_selected.y - (if d.m_selected.height > 0 then c_handleSize else 0))
      c_handleSize c_handleSize
  else
    QRect.ofXYWH (d.m_selected.x + d.m_selected.width -
        (if d.m_selected.width > 0 then c_handleSize else 0) - 1)
      (d.m_selected.y - (if d.m_selected.height > 0 then 0 else c_handleSize))
      c_handleSize c_handleSize

/-- Bottom-right handle rect. -/
def bottomRightHandleRect (d : CropFramePrivate) : QRect :=
  if d.isHandleOutside then
    QRect.ofXYWH (d.m_selected.x + d.m_selected.width - 1 -
        (if d.m_selected.width > 0 then 0 else c_handleSize))
      (d.m_selected.y + d.m_selected.height -
        (if d.m_selected.height > 0 then 0 else c_handleSize))
      c_handleSize c_handleSize
  else
    QRect.ofXYWH (d.m_selected.x + d.m_selected.width -
        (if d.m_selected.width > 0 then c_handleSize else 0) - 1)
      (d.m_selected.y + d.m_selected.height -
        (if d.m_selected.height > 0 then c_handleSize else 0) - 1)
      c_handleSize c_handleSize

/-- Bottom-left handle rect. -/
def bottomLeftHandleRect (d : CropFramePrivate) : QRect :=
  if d.isHandleOutside then
    QRect.ofXYWH (d.m_selected.x - (if d.m_selected.width > 0 then c_handleSize else 0))
      (d.m_selected.y + d.m_selected.height - 1 -
        (if d.m_selected.height > 0 then 0 else c_handleSize))
      c_handleSize c_handleSize
  else
    QRect.ofXYWH (d.m_selected.x - (if d.m_selected.width > 0 then 0 else c_handleSize))
      (d.m_selected.y + d.m_selected.height -
        (if d.m_selected.height > 0 then c_handleSize else 0) - 1)
      c_handleSize c_handleSize

/-- Y handle width. -/
def yHandleWidth (d : CropFramePrivate) : Int :=
  let w := d.m_selected.width - 1
  if d.isHandleOutside then w
  else w - 2 * c_handleSize - Int.tdiv (w - 2 * c_handleSize) 3

/-- X handle height. -/
def xHandleHeight (d : CropFramePrivate) : Int :=
  let h := d.m_selected.height - 1
  if d.isHandleOutside then h
  else h - 2 * c_handleSize - Int.tdiv (h - 2 * c_handleSize) 3

/-- Y handle x position. -/
def yHandleXPos (d : CropFramePrivate) : Int :=
  d.m_selected.x + Int.tdiv (d.m_selected.width - d.yHandleWidth) 2

/-- X handle y position. -/
def xHandleYPos (d : CropFramePrivate) : Int :=
  d.m_selected.y + Int.tdiv (d.m_selected.height - d.xHandleHeight) 2

/-- Top handle rect. -/
def topHandleRect (d : CropFramePrivate) : QRect :=
  if d.isHandleOutside then
    QRect.ofXYWH d.yHandleXPos
      (d.m_selected.y - (if d.m_selected.height > 0 then c_handleSize else 0))
      d.yHandleWidth c_handleSize
  else
    QRect.ofXYWH d.yHandleXPos
      (d.m_selected.y - (if d.m_selected.height > 0 then 0 else c_handleSize))
      d.yHandleWidth c_handleSize

/-- Bottom handle rect. -/
def bottomHandleRect (d : CropFramePrivate) : QRect :=
  if d.isHandleOutside then
    QRect.ofXYWH d.yHandleXPos
      (d.m_selected.y + d.m_selected.height - 1 -
        (if d.m_selected.height > 0 then 0 else c_handleSize))
      d.yHandleWidth c_handleSize
  else
    QRect.ofXYWH d.yHandleXPos
      (d.m_selected.y + d.m_selected.height - 1 -
        (if d.m_selected.height > 0 then c_handleSize else 0))
      d.yHandleWidth c_handleSize

/-- Left handle rect. -/
def leftHandleRect (d : CropFramePrivate) : QRect :=
  if d.isHandleOutside then
    QRect.ofXYWH (d.m_selected.x - (if d.m_selected.width > 0 then c_handleSize else 0))
      d.xHandleYPos c_handleSize d.xHandleHeight
  else
    QRect.ofXYWH (d.m_selected.x - (if d.m_selected.width > 0 then 0 else c_handleSize))
      d.xHandleYPos c_handleSize d.xHandleHeight

/-- Right handle rect. -/
def rightHandleRect (d : CropFramePrivate) : QRect :=
  if d.isHandleOutside then
    QRect.ofXYWH (d.m_selected.x + d.m_selected.width - 1 -
        (if d.m_selected.width > 0 then 0 else c_handleSize))
      d.xHandleYPos c_handleSize d.xHandleHeight
  else
    QRect.ofXYWH (d.m_selected.x + d.m_selected.width - 1 -
        (if d.m_selected.width > 0 then c_handleSize else 0))
      d.xHandleYPos c_handleSize d.xHandleHeight

/-- Resize crop. -/
def resize (d : CropFramePrivate) (pos : QPoint) : CropFramePrivate :=
  let sel : QRect :=
    match d.m_handle with
    | Handle.Unknown =>
        d.m_selected.moveTo (d.boundLeftTopToAvailable (d.m_selected.topLeft - d.m_mousePos + pos))
    | Handle.TopLeft =>
        d.m_selected.setTopLeft (d.boundToAvailable (d.m_selected.topLeft - d.m_mousePos + pos))
    | Handle.TopRight =>
        d.m_selected.setTopRight (d.boundToAvailable (d.m_selected.topRight - d.m_mousePos + pos))
    | Handle.BottomRight =>
        d.m_selected.setBottomRight
          (d.boundToAvailable (d.m_selected.bottomRight - d.m_mousePos + pos))
    | Handle.BottomLeft =>
        d.m_selected.setBottomLeft
          (d.boundToAvailable (d.m_selected.bottomLeft - d.m_mousePos + pos))
    | Handle.Top =>
        d.m_selected.setTop
          (d.boundToAvailable (⟨d.m_selected.left, d.m_selected.top⟩ - d.m_mousePos + pos)).y
    | Handle.Bottom =>
        d.m_selected.setBottom
          (d.boundToAvailable (⟨d.m_selected.left, d.m_selected.bottom⟩ - d.m_mousePos + pos)).y
    | Handle.Left =>
        d.m_selected.setLeft
          (d.boundToAvailable (⟨d.m_selected.left, d.m_selected.top⟩ - d.m_mousePos + pos)).x
    | Handle.Right =>
        d.m_selected.setRight
          (d.boundToAvailable (⟨d.m_selected.right, d.m_selected.top⟩ - d.m_mousePos + pos)).x
  { d with m_selected := sel, m_mousePos := pos }

/-- The conversion `static_cast< int >` of a `qreal`: truncation toward zero. -/
def toInt (q : ℚ) : Int := if 0 ≤ q then ⌊q⌋ else ⌈q⌉

/-- Cropped rect, with the ratios and the products taken exactly, in `ℚ`. The
version that rounds as the `qreal` arithmetic of the code does is
`croppedQreal`. -/
def cropped (d : CropFramePrivate) (full : QRect) : QRect :=
  let oldR := d.m_available
  let xRatio : ℚ := (full.width : ℚ) / (oldR.width : ℚ)
  let yRatio : ℚ := (full.height : ℚ) / (oldR.height : ℚ)
  let r := QRect.null
  if !d.m_nothing then
    let x := toInt (((d.m_selected.x - oldR.x : Int) : ℚ) * xRatio) + full.x
    let y := toInt (((d.m_selected.y - oldR.y : Int) : ℚ) * yRatio) + full.y
    let dx := full.bottomRight.x -
      toInt (((oldR.bottomRight.x - d.m_selected.bottomRight.x : Int) : ℚ) * xRatio)
    let dy := full.bottomRight.y -
      toInt (((oldR.bottomRight.y - d.m_selected.bottomRight.y : Int) : ℚ) * yRatio)
    (r.setTopLeft ⟨x, y⟩).setBottomRight ⟨dx, dy⟩
  else r

/-- Cropped rect, computed as the code does: the two ratios are quotients in
`qreal`, each product of an `int` (converted exactly) and a ratio is a product
in `qreal`, and `static_cast< int >` truncates. An available rect of width or
height 0, for which the code divides by zero, is not described. -/
def croppedQreal (d : CropFramePrivate) (full : QRect) : QRect :=
  let oldR := d.m_available
  let xRatio : ℚ := qreal ((full.width : ℚ) / (oldR.width : ℚ))
  let yRatio : ℚ := qreal ((full.height : ℚ) / (oldR.height : ℚ))
  let r := QRect.null
  if !d.m_nothing then
    let x := toInt (qreal (((d.m_selected.x - oldR.x : Int) : ℚ) * xRatio)) + full.x
    let y := toInt (qreal (((d.m_selected.y - oldR.y : Int) : ℚ) * yRatio)) + full.y
    let dx := full.bottomRight.x -
      toInt (qreal (((oldR.bottomRight.x - d.m_selected.bottomRight.x : Int) : ℚ) * xRatio))
    let dy := full.bottomRight.y -
      toInt (qreal (((oldR.bottomRight.y - d.m_selected.bottomRight.y : Int) : ℚ) * yRatio))
    (r.setTopLeft ⟨x, y⟩).setBottomRight ⟨dx, dy⟩
  else r

/-- Check and override cursor if necessary. The application state is threaded
through: the result is the new private data and the new override stack. -/
def checkAndOverrideCursor (d : CropFramePrivate) (app : QApplication)
    (shape : CursorShape) : CropFramePrivate × QApplication :=
  match app.overrideCursor with
  | some c =>
      if c ≠ shape then
        if d.m_cursorOverriden then
          (d, app.restoreOverrideCursor.setOverrideCursor shape)
        else
          ({ d with m_cursorOverriden := true }, app.setOverrideCursor shape)
      else (d, app)
  | none => ({ d with m_cursorOverriden := true }, app.setOverrideCursor shape)

/-- Override cursor. -/
def overrideCursor (d : CropFramePrivate) (app : QApplication)
    (pos : QPoint) : CropFramePrivate × QApplication :=
  if d.topLeftHandleRect.contains pos then
    checkAndOverrideCursor { d with m_handle := Handle.TopLeft } app CursorShape.SizeFDiagCursor
  else if d.bottomRightHandleRect.contains pos then
    checkAndOverrideCursor { d with m_handle := Handle.BottomRight } app
      CursorShape.SizeFDiagCursor
  else if d.topRightHandleRect.contains pos then
    checkAndOverrideCursor { d with m_handle := Handle.TopRight } app CursorShape.SizeBDiagCursor
  else if d.bottomLeftHandleRect.contains pos then
    checkAndOverrideCursor { d with m_handle := Handle.BottomLeft } app
      CursorShape.SizeBDiagCursor
  else if d.topHandleRect.contains pos then
    checkAndOverrideCursor { d with m_handle := Handle.Top } app CursorShape.SizeVerCursor
  else if d.bottomHandleRect.contains pos then
    checkAndOverrideCursor { d with m_handle := Handle.Bottom } app CursorShape.SizeVerCursor
  else if d.leftHandleRect.contains pos then
    checkAndOverrideCursor { d with m_handle := Handle.Left } app CursorShape.SizeHorCursor
  else if d.rightHandleRect.contains pos then
    checkAndOverrideCursor { d with m_handle := Handle.Right } app CursorShape.SizeHorCursor
  else if d.m_selected.contains pos then
    checkAndOverrideCursor { d with m_handle := Handle.Unknown } app CursorShape.SizeAllCursor
  else if d.m_cursorOverriden then
    ({ d with m_cursorOverriden := false, m_handle := Handle.Unknown },
      app.restoreOverrideCursor)
  else (d, app)

end CropFramePrivate

/-! ## CropFrame -/

/-- The widget together with the application it runs in: its private data `d`
and the override cursor stack of `QApplication`. -/
structure CropFrame where
  d : CropFramePrivate
  app : QApplication
deriving DecidableEq

namespace CropFrame

/-- The constructor `CropFrame::CropFrame`, for a parent frame whose
`imageRect()` is `imageRect`, in an application state `app`. -/
def new (imageRect : QRect) (app : QApplication) : CropFrame :=
  { d := CropFramePrivate.init imageRect, app := app }

/-- The destructor: the result is the application state it leaves behind. -/
def destroy (w : CropFrame) : QApplication :=
  let app := if w.d.m_cursorOverriden then w.app.restoreOverrideCursor else w.app
  let app := if w.d.m_hovered then app.restoreOverrideCursor else app
  app

/-- The crop rect `CropFrame::cropRect`, where `imageRect` is the rect of the
image of the observed frame, `d->m_frame->image().rect()`. -/
def cropRect (w : CropFrame) (imageRect : QRect) : QRect :=
  w.d.cropped imageRect

/-- Start selecting, `CropFrame::start`. -/
def start (w : CropFrame) : CropFrame :=
  { w with d := { w.d with m_started := true, m_nothing := true } }

/-- Stop selecting, `CropFrame::stop`. -/
def stop (w : CropFrame) : CropFrame :=
  { w with d := { w.d with m_started := false } }

/-- The slot `CropFrame::frameResized`, where `imageRect` is the new
`d->m_frame->imageRect()`. -/
def frameResized (w : CropFrame) (imageRect : QRect) : CropFrame :=
  let d := { w.d with m_selected := w.d.cropped imageRect }
  { w with d := { d with m_available := imageRect } }

/-- The handler `CropFrame::mousePressEvent` for an event with the given
button and position. -/
def mousePressEvent (w : CropFrame) (button : MouseButton) (pos : QPoint) : CropFrame :=
  if button = MouseButton.LeftButton then
    let d := { w.d with m_clicked := true }
    if !d.m_cursorOverriden then
      { w with d := { d with m_selected := d.m_selected.setTopLeft (d.boundToAvailable pos) } }
    else
      { w with d := { d with m_mousePos := pos } }
  else w

/-- The handler `CropFrame::mouseMoveEvent` for an event at the given position. -/
def mouseMoveEvent (w : CropFrame) (pos : QPoint) : CropFrame :=
  if w.d.m_clicked then
    if !w.d.m_cursorOverriden then
      let d := { w.d with m_selected := w.d.m_selected.setBottomRight (w.d.boundToAvailable pos) }
      { w with d := { d with m_nothing := false } }
    else
      { w with d := w.d.resize pos }
  else if !w.d.m_hovered then
    { d := { w.d with m_hovered := true }
      app := w.app.setOverrideCursor CursorShape.CrossCursor }
  else if w.d.m_hovered && !w.d.m_nothing then
    let r := w.d.overrideCursor w.app pos
    { d := r.1, app := r.2 }
  else w

/-- The handler `CropFrame::mouseReleaseEvent` for an event with the given button. -/
def mouseReleaseEvent (w : CropFrame) (button : MouseButton) : CropFrame :=
  let d := { w.d with m_clicked := false }
  if button = MouseButton.LeftButton then
    { w with d := { d with m_selected := d.m_selected.normalized } }
  else
    { w with d := d }

/-- The handler `CropFrame::enterEvent`. -/
def enterEvent (w : CropFrame) : CropFrame :=
  if w.d.m_started then
    { d := { w.d with m_hovered := true }
      app := w.app.setOverrideCursor CursorShape.CrossCursor }
  else w

/-- The handler `CropFrame::leaveEvent`. -/
def leaveEvent (w : CropFrame) : CropFrame :=
  if w.d.m_started then
    { d := { w.d with m_hovered := false }
      app := w.app.restoreOverrideCursor }
  else w

end CropFrame

/-- What can happen to the widget between its construction and its destruction:
the public slots, the resize notification of the host and the input events. -/
inductive Event where
  | start
  | stop
  | frameResized (imageRect : QRect)
  | mousePress (button : MouseButton) (pos : QPoint)
  | mouseMove (pos : QPoint)
  | mouseRelease (button : MouseButton)
  | enter
  | leave
deriving DecidableEq

namespace CropFrame

/-- Deliver one event to the widget. -/
def step (w : CropFrame) : Event → CropFrame
  | Event.start => w.start
  | Event.stop => w.stop
  | Event.frameResized r => w.frameResized r
  | Event.mousePress b p => w.mousePressEvent b p
  | Event.mouseMove p => w.mouseMoveEvent p
  | Event.mouseRelease b => w.mouseReleaseEvent b
  | Event.enter => w.enterEvent
  | Event.leave => w.leaveEvent

/-- Deliver a sequence of events, the first of the list first. -/
def run (w : CropFrame) (es : List Event) : CropFrame := es.foldl step w

end CropFrame

/-- An application in which no override cursor is set and no call was counted. -/
def QApplication.idle : QApplication := { cursors := [], setCalls := 0, restoreCalls := 0 }

/-! ## Predicates and sample states used in the statements -/

/-- The properties of a free-form drag in progress that every further move keeps:
the button is down, the cursor is not overridden, the available rect is `a`
and the top-left corner of the selection is `c`. -/
def FreeFormDrag (a : QRect) (c : QPoint) (s : CropFrame) : Prop :=
  s.d.m_clicked = true ∧ s.d.m_cursorOverriden = false ∧ s.d.m_available = a ∧
    s.d.m_selected.topLeft = c

/-- A state with a non-empty selection `s` in the available rect `a`, all
other fields as after construction. -/
def CropFramePrivate.withSelection (a s : QRect) : CropFramePrivate :=
  { CropFramePrivate.init a with m_selected := s, m_nothing := false }

/-! ## Auxiliary lemmas -/

open CropFramePrivate

theorem QRect.normalized_width_nonneg (r : QRect) : 0 ≤ r.normalized.width := by
  unfold QRect.normalized QRect.width
  dsimp only
  split <;> omega

theorem QRect.normalized_height_nonneg (r : QRect) : 0 ≤ r.normalized.height := by
  unfold QRect.normalized QRect.height
  dsimp only
  split <;> omega

theorem CropFrame.run_append (w : CropFrame) (es fs : List Event) :
    w.run (es ++ fs) = (w.run es).run fs := by
  simp [CropFrame.run, List.foldl_append]

theorem CropFramePrivate.abs_sub_toInt_lt_one (q : ℚ) :
    |q - (CropFramePrivate.toInt q : ℚ)| < 1 := by
  unfold CropFramePrivate.toInt
  rw [abs_lt]
  split
  · have h1 := Int.floor_le q
    have h2 := Int.lt_floor_add_one q
    constructor <;> linarith
  · have h1 := Int.le_ceil q
    have h2 := Int.ceil_lt_add_one q
    constructor <;> linarith

theorem CropFramePrivate.scaled_extent (s1 s2 a1 a2 f1 f2 : Int) (ha : a2 - a1 + 1 ≠ 0) :
    |(((f2 - CropFramePrivate.toInt (((a2 - s2 : Int) : ℚ) *
          (((f2 - f1 + 1 : Int) : ℚ) / ((a2 - a1 + 1 : Int) : ℚ)))) -
        (CropFramePrivate.toInt (((s1 - a1 : Int) : ℚ) *
          (((f2 - f1 + 1 : Int) : ℚ) / ((a2 - a1 + 1 : Int) : ℚ))) + f1) + 1 : Int) : ℚ) -
      ((s2 - s1 + 1 : Int) : ℚ) * (((f2 - f1 + 1 : Int) : ℚ) / ((a2 - a1 + 1 : Int) : ℚ))| < 2 := by
  set R : ℚ := ((f2 - f1 + 1 : Int) : ℚ) / ((a2 - a1 + 1 : Int) : ℚ) with hR
  have ha' : ((a2 - a1 + 1 : Int) : ℚ) ≠ 0 := by exact_mod_cast ha
  have hmul : R * ((a2 - a1 + 1 : Int) : ℚ) = ((f2 - f1 + 1 : Int) : ℚ) := by
    rw [hR]; exact div_mul_cancel₀ _ ha'
  have hA := CropFramePrivate.abs_sub_toInt_lt_one (((a2 - s2 : Int) : ℚ) * R)
  have hB := CropFramePrivate.abs_sub_toInt_lt_one (((s1 - a1 : Int) : ℚ) * R)
  rw [abs_lt] at hA hB ⊢
  push_cast at hA hB hmul ⊢
  constructor <;> linarith [hA.1, hA.2, hB.1, hB.2, hmul]

theorem CropFramePrivate.cropped_of_not_nothing (d : CropFramePrivate) (full : QRect)
    (hn : d.m_nothing = false) :
    d.cropped full =
      { x1 := toInt (((d.m_selected.x1 - d.m_available.x1 : Int) : ℚ) *
              (((full.x2 - full.x1 + 1 : Int) : ℚ) /
                ((d.m_available.x2 - d.m_available.x1 + 1 : Int) : ℚ))) + full.x1
        y1 := toInt (((d.m_selected.y1 - d.m_available.y1 : Int) : ℚ) *
              (((full.y2 - full.y1 + 1 : Int) : ℚ) /
                ((d.m_available.y2 - d.m_available.y1 + 1 : Int) : ℚ))) + full.y1
        x2 := full.x2 - toInt (((d.m_available.x2 - d.m_selected.x2 : Int) : ℚ) *
              (((full.x2 - full.x1 + 1 : Int) : ℚ) /
                ((d.m_available.x2 - d.m_available.x1 + 1 : Int) : ℚ)))
        y2 := full.y2 - toInt (((d.m_available.y2 - d.m_selected.y2 : Int) : ℚ) *
              (((full.y2 - full.y1 + 1 : Int) : ℚ) /
                ((d.m_available.y2 - d.m_available.y1 + 1 : Int) : ℚ))) } := by
  simp [cropped, hn, QRect.setTopLeft, QRect.setBottomRight, QRect.null, QRect.x, QRect.y,
    QRect.width, QRect.height, QRect.bottomRight]

theorem clamp_nearest (lo hi v z : Int) (h1 : lo ≤ z) (h2 : z ≤ hi) :
    |v - (if v < lo then lo else if v > hi then hi else v)| ≤ |v - z| := by
  split_ifs <;>
    first
    | (rcases abs_cases (v - z) with h | h <;> rcases abs_cases (v - lo) with g | g <;> omega)
    | (rcases abs_cases (v - z) with h | h <;> rcases abs_cases (v - hi) with g | g <;> omega)
    | (rw [sub_self, abs_zero]; exact abs_nonneg _)

theorem CropFramePrivate.boundToAvailable_x (d : CropFramePrivate) (p : QPoint) :
    (d.boundToAvailable p).x =
      if p.x < d.m_available.x1 then d.m_available.x1
      else if p.x > d.m_available.x2 then d.m_available.x2 else p.x := by
  simp only [boundToAvailable, QPoint.setX, QPoint.setY, QRect.x, QRect.y, QRect.width,
    QRect.height]
  split_ifs <;> (try dsimp only) <;> omega

theorem CropFramePrivate.boundToAvailable_y (d : CropFramePrivate) (p : QPoint) :
    (d.boundToAvailable p).y =
      if p.y < d.m_available.y1 then d.m_available.y1
      else if p.y > d.m_available.y2 then d.m_available.y2 else p.y := by
  simp only [boundToAvailable, QPoint.setX, QPoint.setY, QRect.x, QRect.y, QRect.width,
    QRect.height]
  split_ifs <;> (try dsimp only) <;> omega

theorem CropFramePrivate.boundToAvailable_congr (d e : CropFramePrivate) (p : QPoint)
    (h : d.m_available = e.m_available) : d.boundToAvailable p = e.boundToAvailable p := by
  unfold boundToAvailable
  rw [h]

theorem CropFrame.freeFormDrag_press (w : CropFrame) (p : QPoint)
    (h : w.d.m_cursorOverriden = false) :
    FreeFormDrag w.d.m_available (w.d.boundToAvailable p)
      (w.mousePressEvent MouseButton.LeftButton p) := by
  simp [FreeFormDrag, CropFrame.mousePressEvent, h, QRect.setTopLeft, QRect.topLeft]
  exact boundToAvailable_congr _ _ _ rfl

theorem CropFrame.freeFormDrag_move (a : QRect) (c : QPoint) (s : CropFrame) (q : QPoint)
    (h : FreeFormDrag a c s) :
    FreeFormDrag a c (s.mouseMoveEvent q) ∧
      (s.mouseMoveEvent q).d.m_selected.bottomRight = s.d.boundToAvailable q ∧
      (s.mouseMoveEvent q).d.m_nothing = false := by
  obtain ⟨h1, h2, h3, h4⟩ := h
  simp only [QRect.topLeft, QPoint.mk.injEq] at h4
  simp [FreeFormDrag, CropFrame.mouseMoveEvent, h1, h2, h3, h4, QRect.setBottomRight,
    QRect.topLeft, QRect.bottomRight]

theorem CropFrame.freeFormDrag_moves (a : QRect) (c : QPoint) (moves : List QPoint) :
    ∀ s : CropFrame, FreeFormDrag a c s → FreeFormDrag a c (s.run (moves.map Event.mouseMove)) := by
  induction moves with
  | nil => intro s h; exact h
  | cons q qs ih =>
    intro s h
    exact ih _ (CropFrame.freeFormDrag_move a c s q h).1

theorem CropFramePrivate.toInt_of_nonneg (q : ℚ) (h : 0 ≤ q) :
    0 ≤ toInt q ∧ (toInt q : ℚ) ≤ q := by
  unfold toInt
  rw [if_pos h]
  exact ⟨Int.floor_nonneg.mpr h, Int.floor_le q⟩

theorem CropFramePrivate.toInt_intCast (n : Int) : toInt (n : ℚ) = n := by
  unfold toInt
  split
  · exact Int.floor_intCast n
  · exact Int.ceil_intCast n

theorem CropFramePrivate.scaled_axis_within (s1 s2 a1 a2 f1 f2 : Int)
    (h1 : a1 ≤ s1) (h2 : s1 ≤ a2) (h3 : a1 ≤ s2) (h4 : s2 ≤ a2) (hs : 0 ≤ s2 - s1 + 1)
    (hf : 0 < f2 - f1 + 1) :
    (f1 ≤ toInt (((s1 - a1 : Int) : ℚ) *
          (((f2 - f1 + 1 : Int) : ℚ) / ((a2 - a1 + 1 : Int) : ℚ))) + f1 ∧
      toInt (((s1 - a1 : Int) : ℚ) *
          (((f2 - f1 + 1 : Int) : ℚ) / ((a2 - a1 + 1 : Int) : ℚ))) + f1 ≤ f2) ∧
    (f1 ≤ f2 - toInt (((a2 - s2 : Int) : ℚ) *
          (((f2 - f1 + 1 : Int) : ℚ) / ((a2 - a1 + 1 : Int) : ℚ))) ∧
      f2 - toInt (((a2 - s2 : Int) : ℚ) *
          (((f2 - f1 + 1 : Int) : ℚ) / ((a2 - a1 + 1 : Int) : ℚ))) ≤ f2) ∧
    0 ≤ (f2 - toInt (((a2 - s2 : Int) : ℚ) *
          (((f2 - f1 + 1 : Int) : ℚ) / ((a2 - a1 + 1 : Int) : ℚ)))) -
        (toInt (((s1 - a1 : Int) : ℚ) *
          (((f2 - f1 + 1 : Int) : ℚ) / ((a2 - a1 + 1 : Int) : ℚ))) + f1) + 1 := by
  have ha : (0 : ℚ) < ((a2 - a1 + 1 : Int) : ℚ) := by
    have : 0 < a2 - a1 + 1 := by omega
    exact_mod_cast this
  have hfq : (0 : ℚ) < ((f2 - f1 + 1 : Int) : ℚ) := by exact_mod_cast hf
  set R : ℚ := ((f2 - f1 + 1 : Int) : ℚ) / ((a2 - a1 + 1 : Int) : ℚ) with hR
  have hRpos : 0 < R := div_pos hfq ha
  have hmul : R * ((a2 - a1 + 1 : Int) : ℚ) = ((f2 - f1 + 1 : Int) : ℚ) := by
    rw [hR]; exact div_mul_cancel₀ _ (ne_of_gt ha)
  have hB0 : (0 : ℚ) ≤ ((s1 - a1 : Int) : ℚ) * R := by
    have : (0 : ℚ) ≤ ((s1 - a1 : Int) : ℚ) := by
      have : 0 ≤ s1 - a1 := by omega
      exact_mod_cast this
    exact mul_nonneg this hRpos.le
  have hA0 : (0 : ℚ) ≤ ((a2 - s2 : Int) : ℚ) * R := by
    have : (0 : ℚ) ≤ ((a2 - s2 : Int) : ℚ) := by
      have : 0 ≤ a2 - s2 := by omega
      exact_mod_cast this
    exact mul_nonneg this hRpos.le
  have hBlt : ((s1 - a1 : Int) : ℚ) * R < ((f2 - f1 + 1 : Int) : ℚ) := by
    have : ((s1 - a1 : Int) : ℚ) ≤ ((a2 - a1 + 1 : Int) : ℚ) - 1 := by
      have : s1 - a1 ≤ a2 - a1 + 1 - 1 := by omega
      exact_mod_cast this
    have := mul_le_mul_of_nonneg_right this hRpos.le
    linarith
  have hAlt : ((a2 - s2 : Int) : ℚ) * R < ((f2 - f1 + 1 : Int) : ℚ) := by
    have : ((a2 - s2 : Int) : ℚ) ≤ ((a2 - a1 + 1 : Int) : ℚ) - 1 := by
      have : a2 - s2 ≤ a2 - a1 + 1 - 1 := by omega
      exact_mod_cast this
    have := mul_le_mul_of_nonneg_right this hRpos.le
    linarith
  obtain ⟨b0, b1⟩ := toInt_of_nonneg _ hB0
  obtain ⟨a0, a1'⟩ := toInt_of_nonneg _ hA0
  have bl : toInt (((s1 - a1 : Int) : ℚ) * R) < f2 - f1 + 1 := by
    have : ((toInt (((s1 - a1 : Int) : ℚ) * R) : Int) : ℚ) < ((f2 - f1 + 1 : Int) : ℚ) :=
      lt_of_le_of_lt b1 hBlt
    exact_mod_cast this
  have al : toInt (((a2 - s2 : Int) : ℚ) * R) < f2 - f1 + 1 := by
    have : ((toInt (((a2 - s2 : Int) : ℚ) * R) : Int) : ℚ) < ((f2 - f1 + 1 : Int) : ℚ) :=
      lt_of_le_of_lt a1' hAlt
    exact_mod_cast this
  have hsum : ((toInt (((a2 - s2 : Int) : ℚ) * R) + toInt (((s1 - a1 : Int) : ℚ) * R) : Int) : ℚ)
      ≤ ((f2 - f1 + 1 : Int) : ℚ) := by
    have hsq : (0 : ℚ) ≤ ((s2 - s1 + 1 : Int) : ℚ) * R := by
      have : (0 : ℚ) ≤ ((s2 - s1 + 1 : Int) : ℚ) := by exact_mod_cast hs
      exact mul_nonneg this hRpos.le
    push_cast at hsq hmul b1 a1' ⊢
    linarith
  have hsum' : toInt (((a2 - s2 : Int) : ℚ) * R) + toInt (((s1 - a1 : Int) : ℚ) * R)
      ≤ f2 - f1 + 1 := by exact_mod_cast hsum
  refine ⟨⟨?_, ?_⟩, ⟨?_, ?_⟩, ?_⟩ <;> omega

theorem QRect.contains_iff (r : QRect) (p : QPoint) (hx : r.x1 ≤ r.x2 + 1)
    (hy : r.y1 ≤ r.y2 + 1) :
    r.contains p = true ↔ (r.x1 ≤ p.x ∧ p.x ≤ r.x2) ∧ (r.y1 ≤ p.y ∧ p.y ≤ r.y2) := by
  have nx : ¬ r.x2 < r.x1 - 1 := by omega
  have ny : ¬ r.y2 < r.y1 - 1 := by omega
  simp only [QRect.contains, nx, ny, if_false]
  split_ifs with h1 h2 <;> simp <;> omega

theorem CropFramePrivate.boundToAvailable_range (d : CropFramePrivate) (p : QPoint)
    (hw : 0 < d.m_available.width) (hh : 0 < d.m_available.height) :
    (d.m_available.left ≤ (d.boundToAvailable p).x ∧
      (d.boundToAvailable p).x ≤ d.m_available.right) ∧
    (d.m_available.top ≤ (d.boundToAvailable p).y ∧
      (d.boundToAvailable p).y ≤ d.m_available.bottom) := by
  simp only [QRect.width, QRect.height] at hw hh
  simp only [QRect.left, QRect.right, QRect.top, QRect.bottom]
  rw [boundToAvailable_x, boundToAvailable_y]
  constructor <;> constructor <;> split_ifs <;> omega

theorem qAbs_eq_abs (t : Int) : qAbs t = |t| := by
  unfold qAbs
  split
  · rw [abs_of_nonneg (by omega)]
  · rw [abs_of_neg (by omega)]

theorem tdiv_three_lt_iff (a : Int) (h : 0 ≤ a) : Int.tdiv a 3 < c_handleSize + 1 ↔ a < 48 := by
  rw [Int.tdiv_eq_ediv h (by decide)]
  unfold c_handleSize
  omega

theorem CropFramePrivate.isHandleOutside_iff_abs (d : CropFramePrivate) :
    d.isHandleOutside = true ↔ |d.m_selected.width| < 48 ∨ |d.m_selected.height| < 48 := by
  unfold isHandleOutside
  rw [Bool.or_eq_true, decide_eq_true_eq, decide_eq_true_eq, qAbs_eq_abs, qAbs_eq_abs,
    tdiv_three_lt_iff _ (abs_nonneg _), tdiv_three_lt_iff _ (abs_nonneg _)]

theorem CropFramePrivate.inside_dims (d : CropFramePrivate) (hW : 1 ≤ d.m_selected.width)
    (hH : 1 ≤ d.m_selected.height) (hi : d.isHandleOutside = false) :
    48 ≤ d.m_selected.width ∧ 48 ≤ d.m_selected.height := by
  have h := d.isHandleOutside_iff_abs
  rw [hi] at h
  simp only [Bool.false_eq_true, false_iff, not_or, not_lt] at h
  rw [abs_of_nonneg (by omega), abs_of_nonneg (by omega)] at h
  exact h

theorem CropFramePrivate.yHandleWidth_outside (d : CropFramePrivate)
    (ho : d.isHandleOutside = true) : d.yHandleWidth = d.m_selected.width - 1 := by
  simp [yHandleWidth, ho]

theorem CropFramePrivate.xHandleHeight_outside (d : CropFramePrivate)
    (ho : d.isHandleOutside = true) : d.xHandleHeight = d.m_selected.height - 1 := by
  simp [xHandleHeight, ho]

theorem CropFramePrivate.yHandleWidth_inside (d : CropFramePrivate)
    (hi : d.isHandleOutside = false) (hW : 31 ≤ d.m_selected.width) :
    d.yHandleWidth = d.m_selected.width - 31 - (d.m_selected.width - 31) / 3 := by
  simp only [yHandleWidth, hi, Bool.false_eq_true, if_false, c_handleSize]
  rw [Int.tdiv_eq_ediv (by omega) (by decide)]
  omega

theorem CropFramePrivate.xHandleHeight_inside (d : CropFramePrivate)
    (hi : d.isHandleOutside = false) (hH : 31 ≤ d.m_selected.height) :
    d.xHandleHeight = d.m_selected.height - 31 - (d.m_selected.height - 31) / 3 := by
  simp only [xHandleHeight, hi, Bool.false_eq_true, if_false, c_handleSize]
  rw [Int.tdiv_eq_ediv (by omega) (by decide)]
  omega

theorem CropFramePrivate.yHandleXPos_eq (d : CropFramePrivate)
    (h : 0 ≤ d.m_selected.width - d.yHandleWidth) :
    d.yHandleXPos = d.m_selected.x1 + (d.m_selected.width - d.yHandleWidth) / 2 := by
  simp only [yHandleXPos, QRect.x]
  rw [Int.tdiv_eq_ediv h (by decide)]

theorem CropFramePrivate.xHandleYPos_eq (d : CropFramePrivate)
    (h : 0 ≤ d.m_selected.height - d.xHandleHeight) :
    d.xHandleYPos = d.m_selected.y1 + (d.m_selected.height - d.xHandleHeight) / 2 := by
  simp only [xHandleYPos, QRect.y]
  rw [Int.tdiv_eq_ediv h (by decide)]

/-- The lengths and positions of the edge handles, for a selected rect of
width and height at least 1, in linear form: in outside placement the length
is the dimension less one and the handle starts at the edge of the selection;
in inside placement both dimensions are at least 48. -/
theorem CropFramePrivate.edge_handle_metrics (d : CropFramePrivate)
    (hW : 1 ≤ d.m_selected.width) (hH : 1 ≤ d.m_selected.height) :
    (d.isHandleOutside = true ∧
      d.yHandleWidth = d.m_selected.width - 1 ∧ d.yHandleXPos = d.m_selected.x1 ∧
      d.xHandleHeight = d.m_selected.height - 1 ∧ d.xHandleYPos = d.m_selected.y1) ∨
    (d.isHandleOutside = false ∧ 48 ≤ d.m_selected.width ∧ 48 ≤ d.m_selected.height ∧
      d.yHandleWidth = d.m_selected.width - 31 - (d.m_selected.width - 31) / 3 ∧
      d.yHandleXPos = d.m_selected.x1 + (d.m_selected.width - d.yHandleWidth) / 2 ∧
      d.xHandleHeight = d.m_selected.height - 31 - (d.m_selected.height - 31) / 3 ∧
      d.xHandleYPos = d.m_selected.y1 + (d.m_selected.height - d.xHandleHeight) / 2) := by
  cases ho : d.isHandleOutside with
  | true =>
    left
    have e1 := d.yHandleWidth_outside ho
    have e2 := d.xHandleHeight_outside ho
    have e3 := d.yHandleXPos_eq (by omega)
    have e4 := d.xHandleYPos_eq (by omega)
    refine ⟨rfl, e1, ?_, e2, ?_⟩ <;> omega
  | false =>
    right
    obtain ⟨h1, h2⟩ := d.inside_dims hW hH ho
    have e1 := d.yHandleWidth_inside ho (by omega)
    have e2 := d.xHandleHeight_inside ho (by omega)
    have e3 := d.yHandleXPos_eq (by omega)
    have e4 := d.xHandleYPos_eq (by omega)
    exact ⟨rfl, h1, h2, e1, e3, e2, e4⟩

theorem QRect.contains_bounds (r : QRect) (p : QPoint) (h : r.contains p = true) :
    ((r.x1 ≤ p.x ∧ p.x ≤ r.x2) ∨ (r.x2 < r.x1 - 1 ∧ r.x2 ≤ p.x ∧ p.x ≤ r.x1)) ∧
    ((r.y1 ≤ p.y ∧ p.y ≤ r.y2) ∨ (r.y2 < r.y1 - 1 ∧ r.y2 ≤ p.y ∧ p.y ≤ r.y1)) := by
  simp only [QRect.contains] at h
  split_ifs at h <;> omega

theorem CropFramePrivate.handleRects_pairwise (d : CropFramePrivate) (p : QPoint)
    (hW : 1 ≤ d.m_selected.width) (hH : 1 ≤ d.m_selected.height) :
    List.Pairwise (fun a b : QRect => ¬ (a.contains p = true ∧ b.contains p = true))
      [d.topLeftHandleRect, d.topHandleRect, d.topRightHandleRect, d.rightHandleRect,
        d.bottomRightHandleRect, d.bottomHandleRect, d.bottomLeftHandleRect,
        d.leftHandleRect] := by
  have hWp : d.m_selected.width > 0 := by omega
  have hHp : d.m_selected.height > 0 := by omega
  simp only [List.pairwise_cons, List.mem_cons, List.mem_singleton, forall_eq_or_imp, forall_eq,
    List.not_mem_nil, false_imp_iff, implies_true, and_true, List.Pairwise.nil]
  rcases d.edge_handle_metrics hW hH with ⟨ho, e1, e2, e3, e4⟩ | ⟨ho, h1, h2, e1, e2, e3, e4⟩ <;>
    refine ⟨⟨?_, ?_, ?_, ?_, ?_, ?_, ?_⟩, ⟨?_, ?_, ?_, ?_, ?_, ?_⟩, ⟨?_, ?_, ?_, ?_, ?_⟩,
      ⟨?_, ?_, ?_, ?_⟩, ⟨?_, ?_, ?_⟩, ⟨?_, ?_⟩, ?_⟩ <;>
    (rintro ⟨ha, hb⟩
     have A := QRect.contains_bounds _ _ ha
     have B := QRect.contains_bounds _ _ hb
     simp only [topHandleRect, bottomHandleRect, leftHandleRect, rightHandleRect,
       topLeftHandleRect, topRightHandleRect, bottomRightHandleRect, bottomLeftHandleRect,
       ho, hWp, hHp, if_true, if_false, Bool.false_eq_true] at A B
     simp only [QRect.ofXYWH, QRect.width, QRect.height, QRect.x, QRect.y, c_handleSize] at *
     omega)

theorem eq_false_of_excl {a b : Bool} (h : a = true → b = false) (hb : b = true) :
    a = false := by
  cases a
  · rfl
  · rw [h rfl] at hb
    cases hb

theorem CropFramePrivate.checkAndOverrideCursor_effect (d : CropFramePrivate)
    (app : QApplication) (shape : CursorShape) :
    (d.checkAndOverrideCursor app shape).1.m_handle = d.m_handle ∧
    (d.checkAndOverrideCursor app shape).1.m_selected = d.m_selected ∧
    (d.checkAndOverrideCursor app shape).2.overrideCursor = some shape := by
  unfold checkAndOverrideCursor
  cases h : app.overrideCursor with
  | none => exact ⟨rfl, rfl, rfl⟩
  | some c =>
    by_cases hc : c = shape
    · subst hc
      simp [h]
    · by_cases ho : d.m_cursorOverriden = true
      · simp [hc, ho, QApplication.overrideCursor, QApplication.setOverrideCursor]
      · simp [hc, ho, QApplication.overrideCursor, QApplication.setOverrideCursor]

/-- The exact version `cropped` maps the selection proportionally: for a
non-empty selection and an available rect of positive width and height the
offset of the left edge differs from `(selected.x - available.x) * xRatio` by
less than 1 and the width from `selected.width * xRatio` by less than 2,
likewise vertically and against an available rect of twice the width. -/
theorem CropFramePrivate.cropped_scales_proportionally (d : CropFramePrivate) (full : QRect)
    (hn : d.m_nothing = false)
    (hw : 0 < d.m_available.width) (hh : 0 < d.m_available.height) :
    |(((d.cropped full).x - full.x : Int) : ℚ) -
        ((d.m_selected.x - d.m_available.x : Int) : ℚ) *
          ((full.width : ℚ) / (d.m_available.width : ℚ))| < 1 ∧
    |((d.cropped full).width : ℚ) -
        (d.m_selected.width : ℚ) * ((full.width : ℚ) / (d.m_available.width : ℚ))| < 2 ∧
    |(((d.cropped full).y - full.y : Int) : ℚ) -
        ((d.m_selected.y - d.m_available.y : Int) : ℚ) *
          ((full.height : ℚ) / (d.m_available.height : ℚ))| < 1 ∧
    |((d.cropped full).height : ℚ) -
        (d.m_selected.height : ℚ) * ((full.height : ℚ) / (d.m_available.height : ℚ))| < 2 ∧
    ∀ wide : QRect, wide.width = 2 * d.m_available.width →
      |((({ d with m_available := wide } : CropFramePrivate).cropped full).width : ℚ) -
        (d.m_selected.width : ℚ) * ((full.width : ℚ) / (d.m_available.width : ℚ)) / 2| < 2 := by
  have hw' : d.m_available.x2 - d.m_available.x1 + 1 ≠ 0 := by
    unfold QRect.width at hw; omega
  have hh' : d.m_available.y2 - d.m_available.y1 + 1 ≠ 0 := by
    unfold QRect.height at hh; omega
  refine ⟨?_, ?_, ?_, ?_, ?_⟩
  · rw [cropped_of_not_nothing d full hn]
    have h := abs_sub_toInt_lt_one (((d.m_selected.x1 - d.m_available.x1 : Int) : ℚ) *
              (((full.x2 - full.x1 + 1 : Int) : ℚ) /
                ((d.m_available.x2 - d.m_available.x1 + 1 : Int) : ℚ)))
    rw [abs_sub_comm] at h
    simpa [QRect.x, QRect.width] using h
  · rw [cropped_of_not_nothing d full hn]
    exact scaled_extent d.m_selected.x1 d.m_selected.x2 d.m_available.x1 d.m_available.x2
      full.x1 full.x2 hw'
  · rw [cropped_of_not_nothing d full hn]
    have h := abs_sub_toInt_lt_one (((d.m_selected.y1 - d.m_available.y1 : Int) : ℚ) *
              (((full.y2 - full.y1 + 1 : Int) : ℚ) /
                ((d.m_available.y2 - d.m_available.y1 + 1 : Int) : ℚ)))
    rw [abs_sub_comm] at h
    simpa [QRect.y, QRect.height] using h
  · rw [cropped_of_not_nothing d full hn]
    exact scaled_extent d.m_selected.y1 d.m_selected.y2 d.m_available.y1 d.m_available.y2
      full.y1 full.y2 hh'
  · intro wide hwide
    have hwide' : wide.x2 - wide.x1 + 1 ≠ 0 := by
      unfold QRect.width at hw hwide; omega
    rw [cropped_of_not_nothing _ full (by simpa using hn)]
    have h := scaled_extent d.m_selected.x1 d.m_selected.x2 wide.x1 wide.x2
      full.x1 full.x2 hwide'
    have e : (d.m_selected.width : ℚ) * ((full.width : ℚ) / (d.m_available.width : ℚ)) / 2
        = ((d.m_selected.x2 - d.m_selected.x1 + 1 : Int) : ℚ) *
          (((full.x2 - full.x1 + 1 : Int) : ℚ) / ((wide.x2 - wide.x1 + 1 : Int) : ℚ)) := by
      have : ((wide.x2 - wide.x1 + 1 : Int) : ℚ) = 2 * (d.m_available.width : ℚ) := by
        have := hwide; unfold QRect.width at this; unfold QRect.width; exact_mod_cast this
      rw [this]; unfold QRect.width; field_simp; ring
    rw [e]; exact h

theorem abs_roundTiesToEven_sub_le (q : ℚ) : |(roundTiesToEven q : ℚ) - q| ≤ 1 / 2 := by
  have h1 := Int.floor_le q
  have h2 := Int.lt_floor_add_one q
  unfold roundTiesToEven
  rw [abs_le]
  split_ifs <;> push_cast <;> constructor <;> linarith

theorem roundTiesToEven_eq_of_abs_lt (q : ℚ) (m : Int) (h : |q - (m : ℚ)| < 1 / 2) :
    roundTiesToEven q = m := by
  rw [abs_lt] at h
  obtain ⟨h1, h2⟩ := h
  unfold roundTiesToEven
  by_cases hm : (m : ℚ) ≤ q
  · have hf : ⌊q⌋ = m := by
      rw [Int.floor_eq_iff]
      constructor <;> linarith
    rw [hf, if_pos (by linarith)]
  · have hf : ⌊q⌋ = m - 1 := by
      rw [Int.floor_eq_iff]
      push_cast
      constructor <;> linarith
    rw [hf]
    push_cast
    rw [if_neg (by linarith), if_pos (by linarith)]
    ring

theorem lastPlace_le (q : ℚ) (hq : q ≠ 0) : (2 : ℚ) ^ (lastPlace q + 52) ≤ |q| := by
  have h := Int.zpow_log_le_self (b := 2) (r := |q|) (by norm_num) (abs_pos.mpr hq)
  unfold lastPlace
  rw [sub_add_cancel]
  exact_mod_cast h

theorem lastPlace_eq_of (q : ℚ) (e : Int) (h1 : (2 : ℚ) ^ (e + 52) ≤ |q|)
    (h2 : |q| < (2 : ℚ) ^ (e + 53)) : lastPlace q = e := by
  have hpos : 0 < |q| := lt_of_lt_of_le (zpow_pos (by norm_num) _) h1
  have a1 := (Int.zpow_le_iff_le_log (b := 2) (by norm_num) hpos).mp (by exact_mod_cast h1)
  have a2 := (Int.lt_zpow_iff_log_lt (b := 2) (by norm_num) hpos).mp (by exact_mod_cast h2)
  unfold lastPlace
  omega

theorem qreal_eq_of (q : ℚ) (e m : Int) (h1 : (2 : ℚ) ^ (e + 52) ≤ |q|)
    (h2 : |q| < (2 : ℚ) ^ (e + 53)) (h3 : |q / 2 ^ e - (m : ℚ)| < 1 / 2) :
    qreal q = (m : ℚ) * 2 ^ e := by
  have hq : q ≠ 0 := by
    intro h
    rw [h, abs_zero] at h1
    exact absurd h1 (not_le.mpr (zpow_pos (by norm_num) _))
  unfold qreal
  rw [if_neg hq, lastPlace_eq_of q e h1 h2, roundTiesToEven_eq_of_abs_lt _ m h3]

theorem qreal_abs_sub_le (q : ℚ) : |qreal q - q| ≤ |q| / 2 ^ 53 := by
  by_cases hq : q = 0
  · simp [qreal, hq]
  · have hp : (0 : ℚ) < 2 ^ lastPlace q := zpow_pos (by norm_num) _
    have hr := abs_roundTiesToEven_sub_le (q / 2 ^ lastPlace q)
    have hl := lastPlace_le q hq
    rw [zpow_add₀ (by norm_num : (2 : ℚ) ≠ 0)] at hl
    have e : qreal q - q =
        ((roundTiesToEven (q / 2 ^ lastPlace q) : ℚ) - q / 2 ^ lastPlace q) * 2 ^ lastPlace q := by
      unfold qreal
      rw [if_neg hq]
      field_simp
    rw [e, abs_mul, abs_of_pos hp]
    have h52 : ((2 : ℚ) ^ (52 : Int)) = 2 ^ 52 := by norm_cast
    rw [h52] at hl
    calc |(roundTiesToEven (q / 2 ^ lastPlace q) : ℚ) - q / 2 ^ lastPlace q| * 2 ^ lastPlace q
        ≤ 1 / 2 * 2 ^ lastPlace q := mul_le_mul_of_nonneg_right hr hp.le
      _ = (2 ^ lastPlace q * 2 ^ 52) / 2 ^ 53 := by ring
      _ ≤ |q| / 2 ^ 53 := by
          apply div_le_div_of_nonneg_right hl
          positivity

theorem CropFramePrivate.scaled_qreal_error (n fw aw : Int) (haw : 0 < aw)
    (hb : |n * fw| ≤ 2 ^ 51) :
    |qreal ((n : ℚ) * qreal ((fw : ℚ) / (aw : ℚ))) - (n : ℚ) * ((fw : ℚ) / (aw : ℚ))| *
      (aw : ℚ) ≤ 3 / 4 := by
  have haq : (0 : ℚ) < (aw : ℚ) := by exact_mod_cast haw
  set R : ℚ := (fw : ℚ) / (aw : ℚ) with hR
  set x : ℚ := (n : ℚ) * R with hx
  have h1 := qreal_abs_sub_le R
  have h2 := qreal_abs_sub_le ((n : ℚ) * qreal R)
  have hp : |(n : ℚ) * qreal R - x| ≤ |x| / 2 ^ 53 := by
    have : (n : ℚ) * qreal R - x = (n : ℚ) * (qreal R - R) := by rw [hx]; ring
    rw [this, abs_mul, hx, abs_mul, mul_div_assoc]
    exact mul_le_mul_of_nonneg_left h1 (abs_nonneg _)
  have hpabs : |(n : ℚ) * qreal R| ≤ |x| + |x| / 2 ^ 53 := by
    have := abs_sub_abs_le_abs_sub ((n : ℚ) * qreal R) x
    linarith
  have hv : |qreal ((n : ℚ) * qreal R) - x| ≤ 3 * |x| / 2 ^ 53 := by
    have t : qreal ((n : ℚ) * qreal R) - x =
        (qreal ((n : ℚ) * qreal R) - (n : ℚ) * qreal R) + ((n : ℚ) * qreal R - x) := by ring
    rw [t]
    have t2 := abs_add (qreal ((n : ℚ) * qreal R) - (n : ℚ) * qreal R) ((n : ℚ) * qreal R - x)
    have hx0 : 0 ≤ |x| := abs_nonneg _
    have t3 : |(n : ℚ) * qreal R| / 2 ^ 53 ≤ (|x| + |x| / 2 ^ 53) / 2 ^ 53 :=
      div_le_div_of_nonneg_right hpabs (by positivity)
    have t4 : (|x| + |x| / 2 ^ 53) / 2 ^ 53 ≤ 2 * |x| / 2 ^ 53 := by
      apply div_le_div_of_nonneg_right _ (by positivity)
      have : |x| / 2 ^ 53 ≤ |x| := div_le_self hx0 (by norm_num)
      linarith
    have t5 : 3 * |x| / 2 ^ 53 = |x| / 2 ^ 53 + 2 * |x| / 2 ^ 53 := by ring
    linarith
  have hxa : |x| * (aw : ℚ) ≤ 2 ^ 51 := by
    have e : x * (aw : ℚ) = ((n * fw : Int) : ℚ) := by
      rw [hx, hR]; push_cast; field_simp
    have : |x| * (aw : ℚ) = |((n * fw : Int) : ℚ)| := by
      rw [← e, abs_mul x, abs_of_pos haq]
    rw [this]
    have : ((|n * fw| : Int) : ℚ) ≤ ((2 ^ 51 : Int) : ℚ) := by exact_mod_cast hb
    simpa using this
  calc |qreal ((n : ℚ) * qreal R) - x| * (aw : ℚ)
      ≤ 3 * |x| / 2 ^ 53 * (aw : ℚ) := mul_le_mul_of_nonneg_right hv haq.le
    _ = 3 * (|x| * (aw : ℚ)) / 2 ^ 53 := by ring
    _ ≤ 3 * 2 ^ 51 / 2 ^ 53 := by
        apply div_le_div_of_nonneg_right _ (by positivity)
        linarith
    _ = 3 / 4 := by norm_num

theorem CropFramePrivate.scaled_qreal_within_one (n fw aw : Int) (haw : 0 < aw)
    (hb : |n * fw| ≤ 2 ^ 51) :
    |(toInt (qreal ((n : ℚ) * qreal ((fw : ℚ) / (aw : ℚ)))) : ℚ) -
      (n : ℚ) * ((fw : ℚ) / (aw : ℚ))| ≤ 1 := by
  have haq : (0 : ℚ) < (aw : ℚ) := by exact_mod_cast haw
  have herr := scaled_qreal_error n fw aw haw hb
  have htr := abs_sub_toInt_lt_one (qreal ((n : ℚ) * qreal ((fw : ℚ) / (aw : ℚ))))
  set v : ℚ := qreal ((n : ℚ) * qreal ((fw : ℚ) / (aw : ℚ))) with hv
  set k : Int := toInt v with hk
  have e : (n : ℚ) * ((fw : ℚ) / (aw : ℚ)) * (aw : ℚ) = ((n * fw : Int) : ℚ) := by
    push_cast; field_simp
  set x : ℚ := (n : ℚ) * ((fw : ℚ) / (aw : ℚ)) with hx
  rw [abs_lt] at htr
  have hd1 : (v - x) * (aw : ℚ) ≤ 3 / 4 :=
    le_trans (mul_le_mul_of_nonneg_right (le_abs_self _) haq.le) herr
  have hd2 : (x - v) * (aw : ℚ) ≤ 3 / 4 :=
    le_trans (mul_le_mul_of_nonneg_right (by rw [← neg_sub]; exact neg_le_abs _) haq.le) herr
  have u1 : (v - (k : ℚ)) * (aw : ℚ) < 1 * (aw : ℚ) := mul_lt_mul_of_pos_right htr.2 haq
  have u2 : (-1 : ℚ) * (aw : ℚ) < (v - (k : ℚ)) * (aw : ℚ) := mul_lt_mul_of_pos_right htr.1 haq
  have e2 : (n : ℚ) * (fw : ℚ) = x * (aw : ℚ) := by rw [e]; push_cast; ring
  have up : ((n * fw : Int) : ℚ) < (((k + 1) * aw + 1 : Int) : ℚ) := by
    push_cast; rw [e2]; linarith
  have lo : (((k - 1) * aw - 1 : Int) : ℚ) < ((n * fw : Int) : ℚ) := by
    push_cast; rw [e2]; linarith
  have up' : n * fw ≤ (k + 1) * aw := by
    have : n * fw < (k + 1) * aw + 1 := by exact_mod_cast up
    omega
  have lo' : (k - 1) * aw ≤ n * fw := by
    have : (k - 1) * aw - 1 < n * fw := by exact_mod_cast lo
    omega
  have upq : x * (aw : ℚ) ≤ ((k : ℚ) + 1) * (aw : ℚ) := by
    rw [e]; exact_mod_cast up'
  have loq : ((k : ℚ) - 1) * (aw : ℚ) ≤ x * (aw : ℚ) := by
    rw [e]; exact_mod_cast lo'
  have upx : x ≤ (k : ℚ) + 1 := le_of_mul_le_mul_right upq haq
  have lox : (k : ℚ) - 1 ≤ x := le_of_mul_le_mul_right loq haq
  rw [abs_le]
  constructor <;> linarith

theorem toInt_eq_of (q : ℚ) (k : Int) (h0 : 0 ≤ q) (h1 : (k : ℚ) ≤ q) (h2 : q < (k : ℚ) + 1) :
    toInt q = k := by
  unfold toInt
  rw [if_pos h0, Int.floor_eq_iff]
  exact ⟨h1, h2⟩

theorem CropFramePrivate.croppedQreal_of_not_nothing (d : CropFramePrivate) (full : QRect)
    (hn : d.m_nothing = false) :
    d.croppedQreal full =
      { x1 := toInt (qreal (((d.m_selected.x1 - d.m_available.x1 : Int) : ℚ) *
              qreal (((full.x2 - full.x1 + 1 : Int) : ℚ) /
                ((d.m_available.x2 - d.m_available.x1 + 1 : Int) : ℚ)))) + full.x1
        y1 := toInt (qreal (((d.m_selected.y1 - d.m_available.y1 : Int) : ℚ) *
              qreal (((full.y2 - full.y1 + 1 : Int) : ℚ) /
                ((d.m_available.y2 - d.m_available.y1 + 1 : Int) : ℚ)))) + full.y1
        x2 := full.x2 - toInt (qreal (((d.m_available.x2 - d.m_selected.x2 : Int) : ℚ) *
              qreal (((full.x2 - full.x1 + 1 : Int) : ℚ) /
                ((d.m_available.x2 - d.m_available.x1 + 1 : Int) : ℚ))))
        y2 := full.y2 - toInt (qreal (((d.m_available.y2 - d.m_selected.y2 : Int) : ℚ) *
              qreal (((full.y2 - full.y1 + 1 : Int) : ℚ) /
                ((d.m_available.y2 - d.m_available.y1 + 1 : Int) : ℚ)))) } := by
  simp [croppedQreal, hn, QRect.setTopLeft, QRect.setBottomRight, QRect.null, QRect.x, QRect.y,
    QRect.width, QRect.height, QRect.bottomRight]

theorem abs_mul_le_of_bounds (n f : Int) (h0 : 0 ≤ n) (h1 : n ≤ 2 ^ 25) (h2 : 0 ≤ f)
    (h3 : f ≤ 2 ^ 25) : |n * f| ≤ 2 ^ 51 := by
  rw [abs_of_nonneg (mul_nonneg h0 h2)]
  have := mul_le_mul h1 h3 h2 (by norm_num : (0 : Int) ≤ 2 ^ 25)
  have e : (2 : Int) ^ 25 * 2 ^ 25 ≤ 2 ^ 51 := by norm_num
  exact le_trans this e

theorem CropFramePrivate.scaled_extent_qreal (s1 s2 a1 a2 f1 f2 : Int)
    (h1 : a1 ≤ s1) (h2 : s1 ≤ a2) (h3 : a1 ≤ s2) (h4 : s2 ≤ a2)
    (ha : a2 - a1 + 1 ≤ 2 ^ 25) (hf0 : 0 < f2 - f1 + 1) (hf : f2 - f1 + 1 ≤ 2 ^ 25) :
    |((toInt (qreal (((s1 - a1 : Int) : ℚ) *
          qreal (((f2 - f1 + 1 : Int) : ℚ) / ((a2 - a1 + 1 : Int) : ℚ)))) + f1 - f1 : Int) : ℚ) -
      ((s1 - a1 : Int) : ℚ) * (((f2 - f1 + 1 : Int) : ℚ) / ((a2 - a1 + 1 : Int) : ℚ))| ≤ 1 ∧
    |(((f2 - toInt (qreal (((a2 - s2 : Int) : ℚ) *
          qreal (((f2 - f1 + 1 : Int) : ℚ) / ((a2 - a1 + 1 : Int) : ℚ))))) -
        (toInt (qreal (((s1 - a1 : Int) : ℚ) *
          qreal (((f2 - f1 + 1 : Int) : ℚ) / ((a2 - a1 + 1 : Int) : ℚ)))) + f1) + 1 : Int) : ℚ) -
      ((s2 - s1 + 1 : Int) : ℚ) *
        (((f2 - f1 + 1 : Int) : ℚ) / ((a2 - a1 + 1 : Int) : ℚ))| ≤ 2 := by
  have hap : 0 < a2 - a1 + 1 := by omega
  have hB := scaled_qreal_within_one (s1 - a1) (f2 - f1 + 1) (a2 - a1 + 1) hap
    (abs_mul_le_of_bounds _ _ (by omega) (by omega) (by omega) hf)
  have hA := scaled_qreal_within_one (a2 - s2) (f2 - f1 + 1) (a2 - a1 + 1) hap
    (abs_mul_le_of_bounds _ _ (by omega) (by omega) (by omega) hf)
  have haq : ((a2 - a1 + 1 : Int) : ℚ) ≠ 0 := by exact_mod_cast (ne_of_gt hap)
  set R : ℚ := ((f2 - f1 + 1 : Int) : ℚ) / ((a2 - a1 + 1 : Int) : ℚ) with hR
  have hmul : R * ((a2 - a1 + 1 : Int) : ℚ) = ((f2 - f1 + 1 : Int) : ℚ) := by
    rw [hR]; exact div_mul_cancel₀ _ haq
  constructor
  · have e : toInt (qreal (((s1 - a1 : Int) : ℚ) * qreal R)) + f1 - f1 =
        toInt (qreal (((s1 - a1 : Int) : ℚ) * qreal R)) := by omega
    rw [e]
    exact hB
  · rw [abs_le] at hA hB ⊢
    push_cast at hA hB hmul ⊢
    constructor <;> linarith [hA.1, hA.2, hB.1, hB.2, hmul]

theorem CropFramePrivate.scaled_qreal_eval (n fw aw : Int) (m1 e1 m2 e2 k : Int)
    (hR : qreal ((fw : ℚ) / (aw : ℚ)) = (m1 : ℚ) * 2 ^ e1)
    (hP : qreal ((n : ℚ) * ((m1 : ℚ) * 2 ^ e1)) = (m2 : ℚ) * 2 ^ e2)
    (hk : toInt ((m2 : ℚ) * 2 ^ e2) = k) :
    toInt (qreal ((n : ℚ) * qreal ((fw : ℚ) / (aw : ℚ)))) = k := by
  rw [hR, hP, hk]

theorem qreal_ratio_1280_308 :
    qreal (((1280 : Int) : ℚ) / ((308 : Int) : ℚ)) =
      ((4679064547917398 : Int) : ℚ) * 2 ^ (-50 : Int) :=
  qreal_eq_of _ (-50) 4679064547917398
    (by norm_num [abs_of_pos]) (by norm_num [abs_of_pos])
    (by rw [abs_lt]; constructor <;> norm_num)

theorem qreal_ratio_800_200 :
    qreal (((800 : Int) : ℚ) / ((200 : Int) : ℚ)) =
      ((4503599627370496 : Int) : ℚ) * 2 ^ (-50 : Int) :=
  qreal_eq_of _ (-50) 4503599627370496
    (by norm_num [abs_of_pos]) (by norm_num [abs_of_pos])
    (by rw [abs_lt]; constructor <;> norm_num)

theorem croppedQreal_sample_left :
    toInt (qreal (((77 : Int) : ℚ) * qreal (((1280 : Int) : ℚ) / ((308 : Int) : ℚ)))) = 319 :=
  scaled_qreal_eval 77 1280 308 4679064547917398 (-50) 5629499534213119 (-44) 319
    qreal_ratio_1280_308
    (qreal_eq_of _ (-44) 5629499534213119
      (by norm_num [abs_of_pos]) (by norm_num [abs_of_pos])
      (by rw [abs_lt]; constructor <;> norm_num))
    (toInt_eq_of _ 319 (by norm_num) (by norm_num) (by norm_num))

theorem croppedQreal_sample_right :
    toInt (qreal (((154 : Int) : ℚ) * qreal (((1280 : Int) : ℚ) / ((308 : Int) : ℚ)))) = 639 :=
  scaled_qreal_eval 154 1280 308 4679064547917398 (-50) 5629499534213119 (-43) 639
    qreal_ratio_1280_308
    (qreal_eq_of _ (-43) 5629499534213119
      (by norm_num [abs_of_pos]) (by norm_num [abs_of_pos])
      (by rw [abs_lt]; constructor <;> norm_num))
    (toInt_eq_of _ 639 (by norm_num) (by norm_num) (by norm_num))

theorem croppedQreal_sample_top :
    toInt (qreal (((40 : Int) : ℚ) * qreal (((800 : Int) : ℚ) / ((200 : Int) : ℚ)))) = 160 :=
  scaled_qreal_eval 40 800 200 4503599627370496 (-50) 5629499534213120 (-45) 160
    qreal_ratio_800_200
    (qreal_eq_of _ (-45) 5629499534213120
      (by norm_num [abs_of_pos]) (by norm_num [abs_of_pos])
      (by rw [abs_lt]; constructor <;> norm_num))
    (toInt_eq_of _ 160 (by norm_num) (by norm_num) (by norm_num))

theorem croppedQreal_sample_bottom :
    toInt (qreal (((80 : Int) : ℚ) * qreal (((800 : Int) : ℚ) / ((200 : Int) : ℚ)))) = 320 :=
  scaled_qreal_eval 80 800 200 4503599627370496 (-50) 5629499534213120 (-44) 320
    qreal_ratio_800_200
    (qreal_eq_of _ (-44) 5629499534213120
      (by norm_num [abs_of_pos]) (by norm_num [abs_of_pos])
      (by rw [abs_lt]; constructor <;> norm_num))
    (toInt_eq_of _ 320 (by norm_num) (by norm_num) (by norm_num))

theorem croppedQreal_sample :
    (CropFramePrivate.withSelection (QRect.ofXYWH 0 0 308 200) ⟨77, 40, 153, 119⟩).croppedQreal
      (QRect.ofXYWH 0 0 1280 800) = ⟨319, 160, 640, 479⟩ := by
  rw [croppedQreal_of_not_nothing _ _ rfl]
  have h1 := croppedQreal_sample_left
  have h2 := croppedQreal_sample_right
  have h3 := croppedQreal_sample_top
  have h4 := croppedQreal_sample_bottom
  rw [QRect.mk.injEq]
  refine ⟨?_, ?_, ?_, ?_⟩
  · show toInt (qreal (((77 : Int) : ℚ) * qreal (((1280 : Int) : ℚ) / ((308 : Int) : ℚ)))) + 0
      = 319
    rw [h1]; rfl
  · show toInt (qreal (((40 : Int) : ℚ) * qreal (((800 : Int) : ℚ) / ((200 : Int) : ℚ)))) + 0
      = 160
    rw [h3]; rfl
  · show 1279 - toInt (qreal (((154 : Int) : ℚ) *
      qreal (((1280 : Int) : ℚ) / ((308 : Int) : ℚ)))) = 640
    rw [h2]; rfl
  · show 799 - toInt (qreal (((80 : Int) : ℚ) *
      qreal (((800 : Int) : ℚ) / ((200 : Int) : ℚ)))) = 479
    rw [h4]; rfl

theorem CropFramePrivate.scaled_qreal_near_exact (n fw aw : Int) (haw : 0 < aw)
    (hb : |n * fw| ≤ 2 ^ 51) :
    |toInt (qreal ((n : ℚ) * qreal ((fw : ℚ) / (aw : ℚ)))) -
      toInt ((n : ℚ) * ((fw : ℚ) / (aw : ℚ)))| ≤ 1 := by
  have h1 := scaled_qreal_within_one n fw aw haw hb
  have h2 := abs_sub_toInt_lt_one ((n : ℚ) * ((fw : ℚ) / (aw : ℚ)))
  rw [abs_le] at h1
  rw [abs_lt] at h2
  have h3 : ((toInt (qreal ((n : ℚ) * qreal ((fw : ℚ) / (aw : ℚ)))) -
      toInt ((n : ℚ) * ((fw : ℚ) / (aw : ℚ))) : Int) : ℚ) < 2 := by
    push_cast; linarith
  have h4 : (-2 : ℚ) < ((toInt (qreal ((n : ℚ) * qreal ((fw : ℚ) / (aw : ℚ)))) -
      toInt ((n : ℚ) * ((fw : ℚ) / (aw : ℚ))) : Int) : ℚ) := by
    push_cast; linarith
  have h5 : toInt (qreal ((n : ℚ) * qreal ((fw : ℚ) / (aw : ℚ)))) -
      toInt ((n : ℚ) * ((fw : ℚ) / (aw : ℚ))) < 2 := by exact_mod_cast h3
  have h6 : -2 < toInt (qreal ((n : ℚ) * qreal ((fw : ℚ) / (aw : ℚ)))) -
      toInt ((n : ℚ) * ((fw : ℚ) / (aw : ℚ))) := by exact_mod_cast h4
  rw [abs_le]
  constructor <;> omega

/-- The `qreal` computation and the exact one give rects that differ by at
most one unit in each coordinate, for a non-empty selection with both corners
in the available rect and rects of positive width and height of at most
2 ^ 25. -/
theorem CropFramePrivate.croppedQreal_near_cropped (d : CropFramePrivate) (full : QRect)
    (hn : d.m_nothing = false)
    (htl : d.m_available.contains d.m_selected.topLeft = true)
    (hbr : d.m_available.contains d.m_selected.bottomRight = true)
    (hw : 0 < d.m_available.width) (hh : 0 < d.m_available.height)
    (hfw : 0 < full.width) (hfh : 0 < full.height)
    (bw : d.m_available.width ≤ 2 ^ 25) (bh : d.m_available.height ≤ 2 ^ 25)
    (bfw : full.width ≤ 2 ^ 25) (bfh : full.height ≤ 2 ^ 25) :
    |(d.croppedQreal full).x1 - (d.cropped full).x1| ≤ 1 ∧
    |(d.croppedQreal full).y1 - (d.cropped full).y1| ≤ 1 ∧
    |(d.croppedQreal full).x2 - (d.cropped full).x2| ≤ 1 ∧
    |(d.croppedQreal full).y2 - (d.cropped full).y2| ≤ 1 := by
  simp only [QRect.width, QRect.height] at hw hh hfw hfh bw bh bfw bfh
  rw [QRect.contains_iff _ _ (by omega) (by omega)] at htl hbr
  simp only [QRect.topLeft, QRect.bottomRight] at htl hbr
  have a1 := scaled_qreal_near_exact (d.m_selected.x1 - d.m_available.x1)
    (full.x2 - full.x1 + 1) (d.m_available.x2 - d.m_available.x1 + 1) hw
    (abs_mul_le_of_bounds _ _ (by omega) (by omega) (by omega) bfw)
  have a2 := scaled_qreal_near_exact (d.m_selected.y1 - d.m_available.y1)
    (full.y2 - full.y1 + 1) (d.m_available.y2 - d.m_available.y1 + 1) hh
    (abs_mul_le_of_bounds _ _ (by omega) (by omega) (by omega) bfh)
  have a3 := scaled_qreal_near_exact (d.m_available.x2 - d.m_selected.x2)
    (full.x2 - full.x1 + 1) (d.m_available.x2 - d.m_available.x1 + 1) hw
    (abs_mul_le_of_bounds _ _ (by omega) (by omega) (by omega) bfw)
  have a4 := scaled_qreal_near_exact (d.m_available.y2 - d.m_selected.y2)
    (full.y2 - full.y1 + 1) (d.m_available.y2 - d.m_available.y1 + 1) hh
    (abs_mul_le_of_bounds _ _ (by omega) (by omega) (by omega) bfh)
  rw [croppedQreal_of_not_nothing d full hn, cropped_of_not_nothing d full hn]
  rw [abs_le] at a1 a2 a3 a4
  simp only [abs_le]
  refine ⟨⟨?_, ?_⟩, ⟨?_, ?_⟩, ⟨?_, ?_⟩, ⟨?_, ?_⟩⟩ <;> omega

/-! ## The claims -/

/-- C1, evaluated at a failing input. The available rect is 100 by 100 at the
origin. The whole of it is selected by a drag from (0, 0) to (99, 99); two
moves hover the interior of the selection, so that the cursor is overridden
with no handle active; a press at (50, 50) and a move to (60, 60) then make a
move drag. The selection is still non-empty, but `boundLeftTopToAvailable` has
put its top-left corner at (-1, -1), which is not a point of the available
rect. -/
theorem C1_move_drag_escapes_available :
    ((CropFrame.new (QRect.ofXYWH 0 0 100 100) QApplication.idle).run
        [Event.mousePress MouseButton.LeftButton ⟨0, 0⟩,
         Event.mouseMove ⟨99, 99⟩,
         Event.mouseRelease MouseButton.LeftButton,
         Event.mouseMove ⟨50, 50⟩,
         Event.mouseMove ⟨50, 50⟩,
         Event.mousePress MouseButton.LeftButton ⟨50, 50⟩,
         Event.mouseMove ⟨60, 60⟩]).d =
      { m_selected := ⟨-1, -1, 98, 98⟩
        m_available := ⟨0, 0, 99, 99⟩
        m_mousePos := ⟨60, 60⟩
        m_started := false
        m_nothing := false
        m_clicked := true
        m_hovered := true
        m_cursorOverriden := true
        m_handle := Handle.Unknown } ∧
    (⟨0, 0, 99, 99⟩ : QRect).contains (⟨-1, -1, 98, 98⟩ : QRect).topLeft = false := by
  decide

/-- C2, refuted as stated. A drag is started with the primary button at
(50, 50) and moved to (10, 10); the release of the secondary button then ends
the drag without normalizing, and the selected rect is left with width -39
and height -39. -/
theorem C2_release_other_button_counterexample :
    ((CropFrame.new (QRect.ofXYWH 0 0 100 100) QApplication.idle).run
        [Event.mousePress MouseButton.LeftButton ⟨50, 50⟩,
         Event.mouseMove ⟨10, 10⟩,
         Event.mouseRelease MouseButton.RightButton]).d.m_clicked = false ∧
    ((CropFrame.new (QRect.ofXYWH 0 0 100 100) QApplication.idle).run
        [Event.mousePress MouseButton.LeftButton ⟨50, 50⟩,
         Event.mouseMove ⟨10, 10⟩,
         Event.mouseRelease MouseButton.RightButton]).d.m_selected = ⟨50, 50, 10, 10⟩ ∧
    ¬ (0 ≤ ((CropFrame.new (QRect.ofXYWH 0 0 100 100) QApplication.idle).run
        [Event.mousePress MouseButton.LeftButton ⟨50, 50⟩,
         Event.mouseMove ⟨10, 10⟩,
         Event.mouseRelease MouseButton.RightButton]).d.m_selected.width ∧
      0 ≤ ((CropFrame.new (QRect.ofXYWH 0 0 100 100) QApplication.idle).run
        [Event.mousePress MouseButton.LeftButton ⟨50, 50⟩,
         Event.mouseMove ⟨10, 10⟩,
         Event.mouseRelease MouseButton.RightButton]).d.m_selected.height) := by
  decide

/-- C2, amended. From any state of the widget, a press (of any button, anywhere), then
any number of pointer moves, then the release of the primary button leave a
selected rect of non-negative width and non-negative height. -/
theorem C2_selection_normalized_after_release (w : CropFrame) (b : MouseButton) (p : QPoint)
    (moves : List QPoint) :
    0 ≤ (w.run (Event.mousePress b p :: moves.map Event.mouseMove ++
          [Event.mouseRelease MouseButton.LeftButton])).d.m_selected.width ∧
    0 ≤ (w.run (Event.mousePress b p :: moves.map Event.mouseMove ++
          [Event.mouseRelease MouseButton.LeftButton])).d.m_selected.height := by
  rw [CropFrame.run_append]
  generalize w.run (Event.mousePress b p :: moves.map Event.mouseMove) = v
  constructor
  · exact QRect.normalized_width_nonneg _
  · exact QRect.normalized_height_nonneg _

/-- C3, refuted as stated. The selection (77, 40)-(153, 119) lies in the
available rect of 308 by 200 at the origin and the image rect is 1280 by 800.
In `qreal` arithmetic the ratio 1280 / 308 is rounded below its value, 77
times the ratio is rounded below 320 and truncated to 319, and the result is
(319, 160)-(640, 479): its left offset differs from the exact 320 by 1, not
by less than 1, and its width 322 differs from the exact 320 by 2, not by
less than 2. -/
theorem C3_qreal_rounding_counterexample :
    (QRect.ofXYWH 0 0 308 200).contains (⟨77, 40, 153, 119⟩ : QRect).topLeft = true ∧
    (QRect.ofXYWH 0 0 308 200).contains (⟨77, 40, 153, 119⟩ : QRect).bottomRight = true ∧
    (CropFramePrivate.withSelection (QRect.ofXYWH 0 0 308 200) ⟨77, 40, 153, 119⟩).croppedQreal
      (QRect.ofXYWH 0 0 1280 800) = ⟨319, 160, 640, 479⟩ ∧
    ¬ (|((((CropFramePrivate.withSelection (QRect.ofXYWH 0 0 308 200)
              ⟨77, 40, 153, 119⟩).croppedQreal (QRect.ofXYWH 0 0 1280 800)).x -
            (QRect.ofXYWH 0 0 1280 800).x : Int) : ℚ) -
          (((⟨77, 40, 153, 119⟩ : QRect).x - (QRect.ofXYWH 0 0 308 200).x : Int) : ℚ) *
            (((QRect.ofXYWH 0 0 1280 800).width : ℚ) /
              ((QRect.ofXYWH 0 0 308 200).width : ℚ))| < 1) ∧
    ¬ (|(((CropFramePrivate.withSelection (QRect.ofXYWH 0 0 308 200)
              ⟨77, 40, 153, 119⟩).croppedQreal (QRect.ofXYWH 0 0 1280 800)).width : ℚ) -
          ((⟨77, 40, 153, 119⟩ : QRect).width : ℚ) *
            (((QRect.ofXYWH 0 0 1280 800).width : ℚ) /
              ((QRect.ofXYWH 0 0 308 200).width : ℚ))| < 2) := by
  refine ⟨by decide, by decide, croppedQreal_sample, ?_, ?_⟩
  · rw [croppedQreal_sample]
    norm_num [QRect.x, QRect.width, QRect.ofXYWH]
  · rw [croppedQreal_sample]
    norm_num [QRect.x, QRect.width, QRect.ofXYWH]

/-- C3, amended. With the ratios and products computed in `qreal` as the code
does, for a non-empty selection with both corners in the available rect and
for available and image rects of positive width and height of at most 2 ^ 25:
the offset of the left edge of `cropped( full )` from the left edge of `full`
differs from `(selected.x - available.x) * full.width / available.width` by
at most 1, its width differs from `selected.width * full.width /
available.width` by at most 2, likewise vertically, and against an available
rect of twice the width that still holds the selection the width differs from
half of `selected.width * full.width / available.width` by at most 2. -/
theorem C3_croppedQreal_scales_proportionally (d : CropFramePrivate) (full : QRect)
    (hn : d.m_nothing = false)
    (htl : d.m_available.contains d.m_selected.topLeft = true)
    (hbr : d.m_available.contains d.m_selected.bottomRight = true)
    (hw : 0 < d.m_available.width) (hh : 0 < d.m_available.height)
    (hfw : 0 < full.width) (hfh : 0 < full.height)
    (bw : d.m_available.width ≤ 2 ^ 25) (bh : d.m_available.height ≤ 2 ^ 25)
    (bfw : full.width ≤ 2 ^ 25) (bfh : full.height ≤ 2 ^ 25) :
    |(((d.croppedQreal full).x - full.x : Int) : ℚ) -
        ((d.m_selected.x - d.m_available.x : Int) : ℚ) *
          ((full.width : ℚ) / (d.m_available.width : ℚ))| ≤ 1 ∧
    |((d.croppedQreal full).width : ℚ) -
        (d.m_selected.width : ℚ) * ((full.width : ℚ) / (d.m_available.width : ℚ))| ≤ 2 ∧
    |(((d.croppedQreal full).y - full.y : Int) : ℚ) -
        ((d.m_selected.y - d.m_available.y : Int) : ℚ) *
          ((full.height : ℚ) / (d.m_available.height : ℚ))| ≤ 1 ∧
    |((d.croppedQreal full).height : ℚ) -
        (d.m_selected.height : ℚ) * ((full.height : ℚ) / (d.m_available.height : ℚ))| ≤ 2 ∧
    ∀ wide : QRect, wide.width = 2 * d.m_available.width → wide.width ≤ 2 ^ 25 →
      wide.contains d.m_selected.topLeft = true →
      wide.contains d.m_selected.bottomRight = true →
      |((({ d with m_available := wide } : CropFramePrivate).croppedQreal full).width : ℚ) -
        (d.m_selected.width : ℚ) * ((full.width : ℚ) / (d.m_available.width : ℚ)) / 2| ≤ 2 := by
  simp only [QRect.width, QRect.height] at hw hh hfw hfh bw bh bfw bfh
  rw [QRect.contains_iff _ _ (by omega) (by omega)] at htl hbr
  simp only [QRect.topLeft, QRect.bottomRight] at htl hbr
  obtain ⟨x1, x2⟩ := scaled_extent_qreal d.m_selected.x1 d.m_selected.x2 d.m_available.x1
    d.m_available.x2 full.x1 full.x2 htl.1.1 htl.1.2 hbr.1.1 hbr.1.2 bw hfw bfw
  obtain ⟨y1, y2⟩ := scaled_extent_qreal d.m_selected.y1 d.m_selected.y2 d.m_available.y1
    d.m_available.y2 full.y1 full.y2 htl.2.1 htl.2.2 hbr.2.1 hbr.2.2 bh hfh bfh
  refine ⟨?_, ?_, ?_, ?_, ?_⟩
  · rw [croppedQreal_of_not_nothing d full hn]
    exact x1
  · rw [croppedQreal_of_not_nothing d full hn]
    exact x2
  · rw [croppedQreal_of_not_nothing d full hn]
    exact y1
  · rw [croppedQreal_of_not_nothing d full hn]
    exact y2
  · intro wide hwide bwide wtl wbr
    have A := QRect.contains_bounds _ _ wtl
    have B := QRect.contains_bounds _ _ wbr
    simp only [QRect.topLeft, QRect.bottomRight] at A B
    simp only [QRect.width] at hwide bwide
    rw [croppedQreal_of_not_nothing _ full (by simpa using hn)]
    have h := (scaled_extent_qreal d.m_selected.x1 d.m_selected.x2 wide.x1 wide.x2
      full.x1 full.x2 (by omega) (by omega) (by omega) (by omega) bwide hfw bfw).2
    have e : (d.m_selected.width : ℚ) * ((full.width : ℚ) / (d.m_available.width : ℚ)) / 2
        = ((d.m_selected.x2 - d.m_selected.x1 + 1 : Int) : ℚ) *
          (((full.x2 - full.x1 + 1 : Int) : ℚ) / ((wide.x2 - wide.x1 + 1 : Int) : ℚ)) := by
      have : ((wide.x2 - wide.x1 + 1 : Int) : ℚ) = 2 * (d.m_available.width : ℚ) := by
        unfold QRect.width; exact_mod_cast hwide
      rw [this]; unfold QRect.width; field_simp; ring
    rw [e]; exact h

/-- Witness of C3: the selection (77, 40)-(153, 119) in a 308 by 200 available
rect, mapped to a 1280 by 800 image. -/
theorem C3_croppedQreal_scales_proportionally_witness :
    (QRect.ofXYWH 0 0 308 200).contains (⟨77, 40, 153, 119⟩ : QRect).topLeft = true ∧
    (QRect.ofXYWH 0 0 308 200).contains (⟨77, 40, 153, 119⟩ : QRect).bottomRight = true ∧
    0 < (QRect.ofXYWH 0 0 308 200).width ∧ (QRect.ofXYWH 0 0 308 200).width ≤ 2 ^ 25 ∧
    0 < (QRect.ofXYWH 0 0 1280 800).width ∧ (QRect.ofXYWH 0 0 1280 800).width ≤ 2 ^ 25 ∧
    |(((CropFramePrivate.withSelection (QRect.ofXYWH 0 0 308 200)
            ⟨77, 40, 153, 119⟩).croppedQreal (QRect.ofXYWH 0 0 1280 800)).width : ℚ) -
        ((⟨77, 40, 153, 119⟩ : QRect).width : ℚ) *
          (((QRect.ofXYWH 0 0 1280 800).width : ℚ) /
            ((QRect.ofXYWH 0 0 308 200).width : ℚ))| ≤ 2 :=
  ⟨by decide, by decide, by decide, by decide, by decide, by decide,
    (C3_croppedQreal_scales_proportionally
      (CropFramePrivate.withSelection (QRect.ofXYWH 0 0 308 200) ⟨77, 40, 153, 119⟩)
      (QRect.ofXYWH 0 0 1280 800) rfl (by decide) (by decide) (by decide) (by decide)
      (by decide) (by decide) (by decide) (by decide) (by decide) (by decide)).2.1⟩

/-- C4. While nothing is selected, `cropRect()` is the null rect, of width 0
and height 0, whatever the image rect, the available rect and the stored
selected rect are. -/
theorem C4_cropRect_null_when_nothing (w : CropFrame) (imageRect : QRect)
    (h : w.d.m_nothing = true) :
    w.cropRect imageRect = QRect.null ∧
    (w.cropRect imageRect).width = 0 ∧ (w.cropRect imageRect).height = 0 := by
  have e : w.cropRect imageRect = QRect.null := by
    simp [CropFrame.cropRect, cropped, h]
  rw [e]
  exact ⟨rfl, rfl, rfl⟩

/-- Witness of C4: the widget right after `start()`, with a stored selection
left over from before. -/
theorem C4_cropRect_null_when_nothing_witness :
    (CropFrame.start
        { d := { CropFramePrivate.init (QRect.ofXYWH 0 0 100 100) with
                  m_selected := ⟨10, 10, 60, 40⟩, m_nothing := false }
          app := QApplication.idle }).d.m_nothing = true ∧
    (CropFrame.start
        { d := { CropFramePrivate.init (QRect.ofXYWH 0 0 100 100) with
                  m_selected := ⟨10, 10, 60, 40⟩, m_nothing := false }
          app := QApplication.idle }).cropRect (QRect.ofXYWH 0 0 400 300) = QRect.null :=
  ⟨rfl, (C4_cropRect_null_when_nothing _ (QRect.ofXYWH 0 0 400 300) rfl).1⟩

/-- C5, refuted as stated, at two selected rects. For width 100 and height
10 a third of the width exceeds the handle size plus one (33 > 16), yet
`isHandleOutside()` is true, because a third of the height (3) is below it.
For width 48 and height 48 a third of neither dimension exceeds the handle
size plus one (16 > 16 fails), yet `isHandleOutside()` is false. -/
theorem C5_either_dimension_counterexample :
    ¬ (({ CropFramePrivate.init (QRect.ofXYWH 0 0 200 200) with
            m_selected := QRect.ofXYWH 20 20 100 10 } : CropFramePrivate).isHandleOutside = false ↔
        (Int.tdiv (qAbs (QRect.ofXYWH 20 20 100 10).width) 3 > c_handleSize + 1 ∨
          Int.tdiv (qAbs (QRect.ofXYWH 20 20 100 10).height) 3 > c_handleSize + 1)) ∧
    ¬ (({ CropFramePrivate.init (QRect.ofXYWH 0 0 200 200) with
            m_selected := QRect.ofXYWH 20 20 48 48 } : CropFramePrivate).isHandleOutside = false ↔
        (Int.tdiv (qAbs (QRect.ofXYWH 20 20 48 48).width) 3 > c_handleSize + 1 ∨
          Int.tdiv (qAbs (QRect.ofXYWH 20 20 48 48).height) 3 > c_handleSize + 1)) := by
  decide

/-- C5, amended. `isHandleOutside()` is false (inside placement) exactly when a
third of both dimensions of the selected rect is at least the handle size plus
one, and true (outside placement) exactly when that fails. -/
theorem C5_isHandleOutside_iff (d : CropFramePrivate) :
    (d.isHandleOutside = false ↔
      (c_handleSize + 1 ≤ Int.tdiv (qAbs d.m_selected.width) 3 ∧
        c_handleSize + 1 ≤ Int.tdiv (qAbs d.m_selected.height) 3)) ∧
    (d.isHandleOutside = true ↔
      ¬ (c_handleSize + 1 ≤ Int.tdiv (qAbs d.m_selected.width) 3 ∧
        c_handleSize + 1 ≤ Int.tdiv (qAbs d.m_selected.height) 3)) := by
  unfold isHandleOutside
  constructor
  · simp only [Bool.or_eq_false_iff, decide_eq_false_iff_not, not_lt]
  · simp only [Bool.or_eq_true, decide_eq_true_eq, not_and_or, not_le]

/-- C6, evaluated at a failing input. In selection mode a drag selects the
rect from (10, 10) to (90, 90); a move to (12, 12) hovers the top-left handle,
which becomes the active handle; then `start()` is called again. The selection
is now empty, and the active handle is still the top-left one. -/
theorem C6_start_keeps_stale_handle :
    ((CropFrame.new (QRect.ofXYWH 0 0 100 100) QApplication.idle).run
        [Event.start,
         Event.enter,
         Event.mousePress MouseButton.LeftButton ⟨10, 10⟩,
         Event.mouseMove ⟨90, 90⟩,
         Event.mouseRelease MouseButton.LeftButton,
         Event.mouseMove ⟨12, 12⟩,
         Event.start]).d =
      { m_selected := ⟨10, 10, 90, 90⟩
        m_available := ⟨0, 0, 99, 99⟩
        m_mousePos := ⟨0, 0⟩
        m_started := true
        m_nothing := true
        m_clicked := false
        m_hovered := true
        m_cursorOverriden := true
        m_handle := Handle.TopLeft } := by
  decide

/-- C7. `stop()` clears the selection-started flag and changes nothing else:
the selected rect, the available rect, the nothing-selected flag, the active
handle, the other fields and the override cursor stack are as before, and
`cropRect()` gives the same rect after `stop()` as before it. -/
theorem C7_stop_retains_selection (w : CropFrame) (imageRect : QRect) :
    w.stop.d.m_started = false ∧
    w.stop.d.m_selected = w.d.m_selected ∧
    w.stop.d.m_available = w.d.m_available ∧
    w.stop.d.m_nothing = w.d.m_nothing ∧
    w.stop.d.m_handle = w.d.m_handle ∧
    w.stop.d.m_mousePos = w.d.m_mousePos ∧
    w.stop.d.m_clicked = w.d.m_clicked ∧
    w.stop.d.m_hovered = w.d.m_hovered ∧
    w.stop.d.m_cursorOverriden = w.d.m_cursorOverriden ∧
    w.stop.app = w.app ∧
    w.stop.cropRect imageRect = w.cropRect imageRect :=
  ⟨rfl, rfl, rfl, rfl, rfl, rfl, rfl, rfl, rfl, rfl, rfl⟩

/-- C8. For an available rect of positive width and height, `boundToAvailable`
returns a point of the available rect; it returns `p` itself when `p` lies in
the available rect; a coordinate that is in range is kept; and each coordinate
of the result is the value of the range nearest to the coordinate of `p`. -/
theorem C8_boundToAvailable_clamps (d : CropFramePrivate) (p : QPoint)
    (hw : 0 < d.m_available.width) (hh : 0 < d.m_available.height) :
    (d.m_available.left ≤ (d.boundToAvailable p).x ∧
      (d.boundToAvailable p).x ≤ d.m_available.right ∧
      d.m_available.top ≤ (d.boundToAvailable p).y ∧
      (d.boundToAvailable p).y ≤ d.m_available.bottom) ∧
    d.m_available.contains (d.boundToAvailable p) = true ∧
    (d.m_available.contains p = true → d.boundToAvailable p = p) ∧
    (d.m_available.left ≤ p.x → p.x ≤ d.m_available.right → (d.boundToAvailable p).x = p.x) ∧
    (d.m_available.top ≤ p.y → p.y ≤ d.m_available.bottom → (d.boundToAvailable p).y = p.y) ∧
    (∀ z, d.m_available.left ≤ z → z ≤ d.m_available.right →
      |p.x - (d.boundToAvailable p).x| ≤ |p.x - z|) ∧
    (∀ z, d.m_available.top ≤ z → z ≤ d.m_available.bottom →
      |p.y - (d.boundToAvailable p).y| ≤ |p.y - z|) := by
  have hx := boundToAvailable_x d p
  have hy := boundToAvailable_y d p
  simp only [QRect.width, QRect.height] at hw hh
  have inx : d.m_available.x1 ≤ (d.boundToAvailable p).x ∧
      (d.boundToAvailable p).x ≤ d.m_available.x2 := by
    rw [hx]; split_ifs <;> omega
  have iny : d.m_available.y1 ≤ (d.boundToAvailable p).y ∧
      (d.boundToAvailable p).y ≤ d.m_available.y2 := by
    rw [hy]; split_ifs <;> omega
  have keepx : d.m_available.x1 ≤ p.x → p.x ≤ d.m_available.x2 →
      (d.boundToAvailable p).x = p.x := by
    intro h1 h2; rw [hx]; split_ifs <;> omega
  have keepy : d.m_available.y1 ≤ p.y → p.y ≤ d.m_available.y2 →
      (d.boundToAvailable p).y = p.y := by
    intro h1 h2; rw [hy]; split_ifs <;> omega
  have cont : ∀ q : QPoint, d.m_available.contains q = true ↔
      (d.m_available.x1 ≤ q.x ∧ q.x ≤ d.m_available.x2) ∧
        (d.m_available.y1 ≤ q.y ∧ q.y ≤ d.m_available.y2) := by
    intro q
    have nx : ¬ d.m_available.x2 < d.m_available.x1 - 1 := by omega
    have ny : ¬ d.m_available.y2 < d.m_available.y1 - 1 := by omega
    simp only [QRect.contains, nx, ny, if_false]
    split_ifs with h1 h2 <;> simp <;> omega
  refine ⟨⟨inx.1, inx.2, iny.1, iny.2⟩, (cont _).2 ⟨inx, iny⟩, ?_, keepx, keepy, ?_, ?_⟩
  · intro hc
    have h := (cont p).1 hc
    have ex := keepx h.1.1 h.1.2
    have ey := keepy h.2.1 h.2.2
    cases hq : d.boundToAvailable p with
    | mk qx qy =>
      rw [hq] at ex ey
      cases p
      simp only at ex ey
      rw [ex, ey]
  · intro z h1 h2
    rw [hx]
    exact clamp_nearest _ _ _ _ h1 h2
  · intro z h1 h2
    rw [hy]
    exact clamp_nearest _ _ _ _ h1 h2

/-- Witness of C8: a point to the upper right of a 100 by 80 available rect. -/
theorem C8_boundToAvailable_clamps_witness :
    0 < (CropFramePrivate.init (QRect.ofXYWH 5 5 100 80)).m_available.width ∧
    0 < (CropFramePrivate.init (QRect.ofXYWH 5 5 100 80)).m_available.height ∧
    (CropFramePrivate.init (QRect.ofXYWH 5 5 100 80)).m_available.contains
      ((CropFramePrivate.init (QRect.ofXYWH 5 5 100 80)).boundToAvailable ⟨300, -7⟩) = true :=
  ⟨by decide, by decide,
    (C8_boundToAvailable_clamps (CropFramePrivate.init (QRect.ofXYWH 5 5 100 80)) ⟨300, -7⟩
      (by decide) (by decide)).2.1⟩

/-- C9, evaluated at a failing input. The pointer enters the widget in
selection mode, `stop()` is called, the pointer leaves, `start()` is called,
the pointer enters and leaves again, and the widget is destroyed. The widget
has then called `setOverrideCursor` twice and `restoreOverrideCursor` once, and
a crosshair cursor is left on the override stack. -/
theorem C9_override_cursor_leaked :
    CropFrame.destroy ((CropFrame.new (QRect.ofXYWH 0 0 100 100) QApplication.idle).run
        [Event.start, Event.enter, Event.stop, Event.leave,
         Event.start, Event.enter, Event.leave]) =
      { cursors := [CursorShape.CrossCursor], setCalls := 2, restoreCalls := 1 } := by
  decide

/-- C10, evaluated at a failing input. The freshly constructed widget is not
in selection mode; a pointer move over it sets the pointer-hovering flag and
pushes the crosshair override cursor, and selection mode is still off. -/
theorem C10_move_pushes_cursor_when_stopped :
    (CropFrame.new (QRect.ofXYWH 0 0 100 100) QApplication.idle).d.m_started = false ∧
    (CropFrame.new (QRect.ofXYWH 0 0 100 100) QApplication.idle).d.m_hovered = false ∧
    ((CropFrame.new (QRect.ofXYWH 0 0 100 100) QApplication.idle).mouseMoveEvent
        ⟨5, 5⟩).d.m_started = false ∧
    ((CropFrame.new (QRect.ofXYWH 0 0 100 100) QApplication.idle).mouseMoveEvent
        ⟨5, 5⟩).d.m_hovered = true ∧
    ((CropFrame.new (QRect.ofXYWH 0 0 100 100) QApplication.idle).mouseMoveEvent ⟨5, 5⟩).app =
      { cursors := [CursorShape.CrossCursor], setCalls := 1, restoreCalls := 0 } := by
  decide

/-- C11. From any state in which the cursor is not overridden, a press of the
primary button at `p` followed by pointer moves, the last of them at `q`,
leaves a selected rect whose top-left corner is `boundToAvailable( p )` and
whose bottom-right corner is `boundToAvailable( q )`, whatever the selected
rect was before, and the selection is non-empty. -/
theorem C11_free_form_drag_selects (w : CropFrame) (p q : QPoint) (moves : List QPoint)
    (h : w.d.m_cursorOverriden = false) :
    (w.run (Event.mousePress MouseButton.LeftButton p :: moves.map Event.mouseMove ++
        [Event.mouseMove q])).d.m_selected =
      ⟨(w.d.boundToAvailable p).x, (w.d.boundToAvailable p).y,
        (w.d.boundToAvailable q).x, (w.d.boundToAvailable q).y⟩ ∧
    (w.run (Event.mousePress MouseButton.LeftButton p :: moves.map Event.mouseMove ++
        [Event.mouseMove q])).d.m_selected.topLeft = w.d.boundToAvailable p ∧
    (w.run (Event.mousePress MouseButton.LeftButton p :: moves.map Event.mouseMove ++
        [Event.mouseMove q])).d.m_selected.bottomRight = w.d.boundToAvailable q ∧
    (w.run (Event.mousePress MouseButton.LeftButton p :: moves.map Event.mouseMove ++
        [Event.mouseMove q])).d.m_nothing = false := by
  rw [CropFrame.run_append]
  have hs : FreeFormDrag w.d.m_available (w.d.boundToAvailable p)
      (w.run (Event.mousePress MouseButton.LeftButton p :: moves.map Event.mouseMove)) :=
    CropFrame.freeFormDrag_moves _ _ moves _ (CropFrame.freeFormDrag_press w p h)
  generalize w.run (Event.mousePress MouseButton.LeftButton p :: moves.map Event.mouseMove) = s
    at hs
  obtain ⟨⟨-, -, -, g4⟩, g5, g6⟩ := CropFrame.freeFormDrag_move _ _ s q hs
  have e : s.d.boundToAvailable q = w.d.boundToAvailable q :=
    boundToAvailable_congr _ _ _ hs.2.2.1
  rw [e] at g5
  have g4' : (s.mouseMoveEvent q).d.m_selected.topLeft = w.d.boundToAvailable p := g4
  have g5' : (s.mouseMoveEvent q).d.m_selected.bottomRight = w.d.boundToAvailable q := g5
  refine ⟨?_, g4', g5', g6⟩
  show (s.mouseMoveEvent q).d.m_selected = _
  generalize (s.mouseMoveEvent q).d.m_selected = r at g4' g5'
  rw [← g4', ← g5']
  rfl

/-- Witness of C11: a drag from (10, 10) over (500, 3) to (40, 70) in a fresh
widget with a 100 by 100 available rect. -/
theorem C11_free_form_drag_selects_witness :
    (CropFrame.new (QRect.ofXYWH 0 0 100 100) QApplication.idle).d.m_cursorOverriden = false ∧
    ((CropFrame.new (QRect.ofXYWH 0 0 100 100) QApplication.idle).run
      (Event.mousePress MouseButton.LeftButton ⟨10, 10⟩ ::
        [(⟨500, 3⟩ : QPoint)].map Event.mouseMove ++ [Event.mouseMove ⟨40, 70⟩])).d.m_nothing
      = false :=
  ⟨rfl, (C11_free_form_drag_selects (CropFrame.new (QRect.ofXYWH 0 0 100 100) QApplication.idle)
    ⟨10, 10⟩ ⟨40, 70⟩ [⟨500, 3⟩] rfl).2.2.2⟩

/-- C12. A host resize preserves containment. If the selection is non-empty,
has non-negative width and height and has both corners in the old available
rect, of positive width and height, then for every new image rect of positive
width and height `frameResized` stores `cropped( newRect )` as the selection
and `newRect` as the available rect, both corners of the stored selection are
points of `newRect`, and its width and height are non-negative. -/
theorem C12_frameResized_keeps_selection_within (w : CropFrame) (newRect : QRect)
    (hn : w.d.m_nothing = false)
    (hsw : 0 ≤ w.d.m_selected.width) (hsh : 0 ≤ w.d.m_selected.height)
    (htl : w.d.m_available.contains w.d.m_selected.topLeft = true)
    (hbr : w.d.m_available.contains w.d.m_selected.bottomRight = true)
    (haw : 0 < w.d.m_available.width) (hah : 0 < w.d.m_available.height)
    (hnw : 0 < newRect.width) (hnh : 0 < newRect.height) :
    (w.frameResized newRect).d.m_selected = w.d.cropped newRect ∧
    (w.frameResized newRect).d.m_available = newRect ∧
    newRect.contains (w.frameResized newRect).d.m_selected.topLeft = true ∧
    newRect.contains (w.frameResized newRect).d.m_selected.bottomRight = true ∧
    0 ≤ (w.frameResized newRect).d.m_selected.width ∧
    0 ≤ (w.frameResized newRect).d.m_selected.height := by
  have e : (w.frameResized newRect).d.m_selected = w.d.cropped newRect := rfl
  refine ⟨e, rfl, ?_⟩
  rw [e, cropped_of_not_nothing w.d newRect hn]
  simp only [QRect.width, QRect.height] at hsw hsh haw hah hnw hnh
  rw [QRect.contains_iff _ _ (by omega) (by omega)] at htl hbr
  simp only [QRect.topLeft, QRect.bottomRight] at htl hbr
  obtain ⟨⟨x1, x2⟩, ⟨x3, x4⟩, x5⟩ := scaled_axis_within w.d.m_selected.x1 w.d.m_selected.x2
    w.d.m_available.x1 w.d.m_available.x2 newRect.x1 newRect.x2
    htl.1.1 htl.1.2 hbr.1.1 hbr.1.2 (by omega) (by omega)
  obtain ⟨⟨y1, y2⟩, ⟨y3, y4⟩, y5⟩ := scaled_axis_within w.d.m_selected.y1 w.d.m_selected.y2
    w.d.m_available.y1 w.d.m_available.y2 newRect.y1 newRect.y2
    htl.2.1 htl.2.2 hbr.2.1 hbr.2.2 (by omega) (by omega)
  rw [QRect.contains_iff _ _ (by omega) (by omega),
    QRect.contains_iff _ _ (by omega) (by omega)]
  simp only [QRect.topLeft, QRect.bottomRight, QRect.width, QRect.height]
  exact ⟨⟨⟨x1, x2⟩, ⟨y1, y2⟩⟩, ⟨⟨x3, x4⟩, ⟨y3, y4⟩⟩, x5, y5⟩

/-- Witness of C12: a 50 by 30 selection in a 100 by 80 available rect, the
host being resized to an image rect of 37 by 53 at (4, 9). -/
theorem C12_frameResized_keeps_selection_within_witness :
    0 < (QRect.ofXYWH 0 0 100 80).width ∧ 0 < (QRect.ofXYWH 4 9 37 53).width ∧
    (QRect.ofXYWH 4 9 37 53).contains
      (CropFrame.frameResized
        { d := { CropFramePrivate.init (QRect.ofXYWH 0 0 100 80) with
                  m_selected := QRect.ofXYWH 10 20 50 30, m_nothing := false }
          app := QApplication.idle } (QRect.ofXYWH 4 9 37 53)).d.m_selected.topLeft = true :=
  ⟨by decide, by decide,
    (C12_frameResized_keeps_selection_within
      { d := { CropFramePrivate.init (QRect.ofXYWH 0 0 100 80) with
                m_selected := QRect.ofXYWH 10 20 50 30, m_nothing := false }
        app := QApplication.idle } (QRect.ofXYWH 4 9 37 53)
      rfl (by decide) (by decide) (by decide) (by decide) (by decide) (by decide)
      (by decide) (by decide)).2.2.1⟩

/-- C13. For an available rect of positive width and height, `resize( pos )`
records `pos` as the mouse position; with no active handle it keeps the width
and the height of the selected rect; with an edge handle it leaves the three
other edge coordinates as they were and puts the owned one in the range of
the available rect on its axis; with a corner handle it leaves the two
opposite edge coordinates as they were and puts the two owned ones in range. -/
theorem C13_resize_changes_owned_edges (d : CropFramePrivate) (pos : QPoint)
    (hw : 0 < d.m_available.width) (hh : 0 < d.m_available.height) :
    (d.resize pos).m_mousePos = pos ∧
    (d.m_handle = Handle.Unknown →
      (d.resize pos).m_selected.width = d.m_selected.width ∧
      (d.resize pos).m_selected.height = d.m_selected.height) ∧
    (d.m_handle = Handle.Top →
      (d.resize pos).m_selected.left = d.m_selected.left ∧
      (d.resize pos).m_selected.right = d.m_selected.right ∧
      (d.resize pos).m_selected.bottom = d.m_selected.bottom ∧
      d.m_available.top ≤ (d.resize pos).m_selected.top ∧
      (d.resize pos).m_selected.top ≤ d.m_available.bottom) ∧
    (d.m_handle = Handle.Bottom →
      (d.resize pos).m_selected.left = d.m_selected.left ∧
      (d.resize pos).m_selected.right = d.m_selected.right ∧
      (d.resize pos).m_selected.top = d.m_selected.top ∧
      d.m_available.top ≤ (d.resize pos).m_selected.bottom ∧
      (d.resize pos).m_selected.bottom ≤ d.m_available.bottom) ∧
    (d.m_handle = Handle.Left →
      (d.resize pos).m_selected.top = d.m_selected.top ∧
      (d.resize pos).m_selected.bottom = d.m_selected.bottom ∧
      (d.resize pos).m_selected.right = d.m_selected.right ∧
      d.m_available.left ≤ (d.resize pos).m_selected.left ∧
      (d.resize pos).m_selected.left ≤ d.m_available.right) ∧
    (d.m_handle = Handle.Right →
      (d.resize pos).m_selected.top = d.m_selected.top ∧
      (d.resize pos).m_selected.bottom = d.m_selected.bottom ∧
      (d.resize pos).m_selected.left = d.m_selected.left ∧
      d.m_available.left ≤ (d.resize pos).m_selected.right ∧
      (d.resize pos).m_selected.right ≤ d.m_available.right) ∧
    (d.m_handle = Handle.TopLeft →
      (d.resize pos).m_selected.right = d.m_selected.right ∧
      (d.resize pos).m_selected.bottom = d.m_selected.bottom ∧
      (d.m_available.left ≤ (d.resize pos).m_selected.left ∧
        (d.resize pos).m_selected.left ≤ d.m_available.right) ∧
      (d.m_available.top ≤ (d.resize pos).m_selected.top ∧
        (d.resize pos).m_selected.top ≤ d.m_available.bottom)) ∧
    (d.m_handle = Handle.TopRight →
      (d.resize pos).m_selected.left = d.m_selected.left ∧
      (d.resize pos).m_selected.bottom = d.m_selected.bottom ∧
      (d.m_available.left ≤ (d.resize pos).m_selected.right ∧
        (d.resize pos).m_selected.right ≤ d.m_available.right) ∧
      (d.m_available.top ≤ (d.resize pos).m_selected.top ∧
        (d.resize pos).m_selected.top ≤ d.m_available.bottom)) ∧
    (d.m_handle = Handle.BottomRight →
      (d.resize pos).m_selected.left = d.m_selected.left ∧
      (d.resize pos).m_selected.top = d.m_selected.top ∧
      (d.m_available.left ≤ (d.resize pos).m_selected.right ∧
        (d.resize pos).m_selected.right ≤ d.m_available.right) ∧
      (d.m_available.top ≤ (d.resize pos).m_selected.bottom ∧
        (d.resize pos).m_selected.bottom ≤ d.m_available.bottom)) ∧
    (d.m_handle = Handle.BottomLeft →
      (d.resize pos).m_selected.right = d.m_selected.right ∧
      (d.resize pos).m_selected.top = d.m_selected.top ∧
      (d.m_available.left ≤ (d.resize pos).m_selected.left ∧
        (d.resize pos).m_selected.left ≤ d.m_available.right) ∧
      (d.m_available.top ≤ (d.resize pos).m_selected.bottom ∧
        (d.resize pos).m_selected.bottom ≤ d.m_available.bottom)) := by
  have rng := fun p => boundToAvailable_range d p hw hh
  refine ⟨rfl, ?_, ?_, ?_, ?_, ?_, ?_, ?_, ?_, ?_⟩
  · intro hH
    simp only [resize, hH, QRect.moveTo, QRect.width, QRect.height]
    constructor <;> omega
  · intro hH
    simp only [resize, hH, QRect.setTop, QRect.left, QRect.right, QRect.top, QRect.bottom]
    exact ⟨trivial, trivial, trivial, (rng _).2⟩
  · intro hH
    simp only [resize, hH, QRect.setBottom, QRect.left, QRect.right, QRect.top, QRect.bottom]
    exact ⟨trivial, trivial, trivial, (rng _).2⟩
  · intro hH
    simp only [resize, hH, QRect.setLeft, QRect.left, QRect.right, QRect.top, QRect.bottom]
    exact ⟨trivial, trivial, trivial, (rng _).1⟩
  · intro hH
    simp only [resize, hH, QRect.setRight, QRect.left, QRect.right, QRect.top, QRect.bottom]
    exact ⟨trivial, trivial, trivial, (rng _).1⟩
  · intro hH
    simp only [resize, hH, QRect.setTopLeft, QRect.left, QRect.right, QRect.top, QRect.bottom]
    exact ⟨trivial, trivial, (rng _).1, (rng _).2⟩
  · intro hH
    simp only [resize, hH, QRect.setTopRight, QRect.left, QRect.right, QRect.top, QRect.bottom]
    exact ⟨trivial, trivial, (rng _).1, (rng _).2⟩
  · intro hH
    simp only [resize, hH, QRect.setBottomRight, QRect.left, QRect.right, QRect.top,
      QRect.bottom]
    exact ⟨trivial, trivial, (rng _).1, (rng _).2⟩
  · intro hH
    simp only [resize, hH, QRect.setBottomLeft, QRect.left, QRect.right, QRect.top,
      QRect.bottom]
    exact ⟨trivial, trivial, (rng _).1, (rng _).2⟩

/-- Witness of C13: the top-left handle of a 50 by 50 selection is dragged to
a point left of a 100 by 100 available rect. -/
theorem C13_resize_changes_owned_edges_witness :
    0 < (QRect.ofXYWH 0 0 100 100).width ∧ 0 < (QRect.ofXYWH 0 0 100 100).height ∧
    (CropFramePrivate.resize
      { CropFramePrivate.withSelection (QRect.ofXYWH 0 0 100 100) (QRect.ofXYWH 10 10 50 50) with
        m_handle := Handle.TopLeft, m_mousePos := ⟨10, 10⟩ } ⟨-5, 20⟩).m_mousePos = ⟨-5, 20⟩ :=
  ⟨by decide, by decide,
    (C13_resize_changes_owned_edges
      { CropFramePrivate.withSelection (QRect.ofXYWH 0 0 100 100) (QRect.ofXYWH 10 10 50 50) with
        m_handle := Handle.TopLeft, m_mousePos := ⟨10, 10⟩ } ⟨-5, 20⟩
      (by decide) (by decide)).1⟩

/-- C14. For a selected rect of width and height at least 1, `overrideCursor(
pos )` does the following. If `pos` lies in the rect of a handle, that handle
is made the active one and the cursor of its direction is requested through
`checkAndOverrideCursor`: the forward diagonal for top-left and bottom-right,
the backward diagonal for top-right and bottom-left, the vertical one for top
and bottom, the horizontal one for left and right. If `pos` lies in no handle
rect but in the selected rect, the active handle becomes none and the move
cursor is requested. If `pos` lies in none of these rects and the cursor was
overridden, the active handle becomes none, the flag is cleared and the
override is popped. A request leaves the active handle as set and makes the
requested shape the current override cursor. -/
theorem C14_overrideCursor_hit_test (d : CropFramePrivate) (app : QApplication) (pos : QPoint)
    (hW : 1 ≤ d.m_selected.width) (hH : 1 ≤ d.m_selected.height) :
    (d.topLeftHandleRect.contains pos = true →
      d.overrideCursor app pos =
        checkAndOverrideCursor { d with m_handle := Handle.TopLeft } app
          CursorShape.SizeFDiagCursor) ∧
    (d.topHandleRect.contains pos = true →
      d.overrideCursor app pos =
        checkAndOverrideCursor { d with m_handle := Handle.Top } app
          CursorShape.SizeVerCursor) ∧
    (d.topRightHandleRect.contains pos = true →
      d.overrideCursor app pos =
        checkAndOverrideCursor { d with m_handle := Handle.TopRight } app
          CursorShape.SizeBDiagCursor) ∧
    (d.rightHandleRect.contains pos = true →
      d.overrideCursor app pos =
        checkAndOverrideCursor { d with m_handle := Handle.Right } app
          CursorShape.SizeHorCursor) ∧
    (d.bottomRightHandleRect.contains pos = true →
      d.overrideCursor app pos =
        checkAndOverrideCursor { d with m_handle := Handle.BottomRight } app
          CursorShape.SizeFDiagCursor) ∧
    (d.bottomHandleRect.contains pos = true →
      d.overrideCursor app pos =
        checkAndOverrideCursor { d with m_handle := Handle.Bottom } app
          CursorShape.SizeVerCursor) ∧
    (d.bottomLeftHandleRect.contains pos = true →
      d.overrideCursor app pos =
        checkAndOverrideCursor { d with m_handle := Handle.BottomLeft } app
          CursorShape.SizeBDiagCursor) ∧
    (d.leftHandleRect.contains pos = true →
      d.overrideCursor app pos =
        checkAndOverrideCursor { d with m_handle := Handle.Left } app
          CursorShape.SizeHorCursor) ∧
    (d.topLeftHandleRect.contains pos = false → d.topHandleRect.contains pos = false →
      d.topRightHandleRect.contains pos = false → d.rightHandleRect.contains pos = false →
      d.bottomRightHandleRect.contains pos = false → d.bottomHandleRect.contains pos = false →
      d.bottomLeftHandleRect.contains pos = false → d.leftHandleRect.contains pos = false →
      (d.m_selected.contains pos = true →
        d.overrideCursor app pos =
          checkAndOverrideCursor { d with m_handle := Handle.Unknown } app
            CursorShape.SizeAllCursor) ∧
      (d.m_selected.contains pos = false → d.m_cursorOverriden = true →
        d.overrideCursor app pos =
          ({ d with m_cursorOverriden := false, m_handle := Handle.Unknown },
            app.restoreOverrideCursor))) ∧
    (∀ (h : Handle) (shape : CursorShape),
      (checkAndOverrideCursor { d with m_handle := h } app shape).1.m_handle = h ∧
      (checkAndOverrideCursor { d with m_handle := h } app shape).2.overrideCursor =
        some shape) := by
  have P := d.handleRects_pairwise pos hW hH
  simp only [List.pairwise_cons, List.mem_cons, List.mem_singleton, forall_eq_or_imp, forall_eq,
    List.not_mem_nil, false_imp_iff, implies_true, and_true, List.Pairwise.nil,
    not_and, Bool.not_eq_true] at P
  obtain ⟨⟨a1, a2, a3, a4, a5, a6, a7⟩, ⟨b1, b2, b3, b4, b5, b6⟩, ⟨c1, c2, c3, c4, c5⟩,
    ⟨f1, f2, f3, f4⟩, ⟨g1, g2, g3⟩, ⟨k1, k2⟩, m1⟩ := P
  refine ⟨?_, ?_, ?_, ?_, ?_, ?_, ?_, ?_, ?_, ?_⟩
  · intro h
    simp only [overrideCursor, h, if_true]
  · intro h
    simp only [overrideCursor, h, eq_false_of_excl a1 h, b3 h, b1 h, b5 h, if_true, if_false,
      Bool.false_eq_true]
  · intro h
    simp only [overrideCursor, h, eq_false_of_excl a2 h, c2 h, if_true, if_false,
      Bool.false_eq_true]
  · intro h
    simp only [overrideCursor, h, eq_false_of_excl a3 h, f1 h, eq_false_of_excl c1 h, f3 h,
      eq_false_of_excl b2 h, f2 h, f4 h, if_true, if_false, Bool.false_eq_true]
  · intro h
    simp only [overrideCursor, h, eq_false_of_excl a4 h, if_true, if_false, Bool.false_eq_true]
  · intro h
    simp only [overrideCursor, h, eq_false_of_excl a5 h, eq_false_of_excl g1 h,
      eq_false_of_excl c3 h, k1 h, eq_false_of_excl b4 h, if_true, if_false,
      Bool.false_eq_true]
  · intro h
    simp only [overrideCursor, h, eq_false_of_excl a6 h, eq_false_of_excl g2 h,
      eq_false_of_excl c4 h, if_true, if_false, Bool.false_eq_true]
  · intro h
    simp only [overrideCursor, h, eq_false_of_excl a7 h, eq_false_of_excl g3 h,
      eq_false_of_excl c5 h, eq_false_of_excl m1 h, eq_false_of_excl b6 h,
      eq_false_of_excl k2 h, if_true, if_false, Bool.false_eq_true]
  · intro n1 n2 n3 n4 n5 n6 n7 n8
    constructor
    · intro hs
      simp only [overrideCursor, n1, n2, n3, n4, n5, n6, n7, n8, hs, if_true, if_false,
        Bool.false_eq_true]
    · intro hs ho
      simp only [overrideCursor, n1, n2, n3, n4, n5, n6, n7, n8, hs, ho, if_true, if_false,
        Bool.false_eq_true]
  · intro h shape
    have e := checkAndOverrideCursor_effect { d with m_handle := h } app shape
    exact ⟨e.1, e.2.2⟩

/-- Witness of C14: the point (12, 12) lies in the top-left handle rect of an
81 by 81 selection at (10, 10). -/
theorem C14_overrideCursor_hit_test_witness :
    1 ≤ (QRect.ofXYWH 10 10 81 81).width ∧ 1 ≤ (QRect.ofXYWH 10 10 81 81).height ∧
    (CropFramePrivate.withSelection (QRect.ofXYWH 0 0 100 100)
        (QRect.ofXYWH 10 10 81 81)).overrideCursor QApplication.idle ⟨12, 12⟩ =
      checkAndOverrideCursor
        { CropFramePrivate.withSelection (QRect.ofXYWH 0 0 100 100)
            (QRect.ofXYWH 10 10 81 81) with m_handle := Handle.TopLeft }
        QApplication.idle CursorShape.SizeFDiagCursor :=
  ⟨by decide, by decide,
    (C14_overrideCursor_hit_test
      (CropFramePrivate.withSelection (QRect.ofXYWH 0 0 100 100) (QRect.ofXYWH 10 10 81 81))
      QApplication.idle ⟨12, 12⟩ (by decide) (by decide)).1 (by decide)⟩

/-- C15. `isHandleOutside()` compares a third of the absolute value of each
dimension of the selected rect with the handle size plus one; it is true
exactly when the absolute width or the absolute height is below 48, false
exactly when both are at least 48, and any two states whose selected rects
have the same absolute width and the same absolute height get the same
answer. -/
theorem C15_isHandleOutside_threshold (d : CropFramePrivate) :
    d.isHandleOutside =
      (decide (Int.tdiv (|d.m_selected.width|) 3 < c_handleSize + 1) ||
        decide (Int.tdiv (|d.m_selected.height|) 3 < c_handleSize + 1)) ∧
    c_handleSize + 1 = 16 ∧
    (d.isHandleOutside = true ↔ |d.m_selected.width| < 48 ∨ |d.m_selected.height| < 48) ∧
    (d.isHandleOutside = false ↔ 48 ≤ |d.m_selected.width| ∧ 48 ≤ |d.m_selected.height|) ∧
    (∀ e : CropFramePrivate, |e.m_selected.width| = |d.m_selected.width| →
      |e.m_selected.height| = |d.m_selected.height| → e.isHandleOutside = d.isHandleOutside) := by
  refine ⟨?_, rfl, d.isHandleOutside_iff_abs, ?_, ?_⟩
  · unfold isHandleOutside
    rw [qAbs_eq_abs, qAbs_eq_abs]
  · rw [← Bool.not_eq_true, d.isHandleOutside_iff_abs, not_or, not_lt, not_lt]
  · intro e hw hh
    rw [Bool.eq_iff_iff, e.isHandleOutside_iff_abs, d.isHandleOutside_iff_abs, hw, hh]

/-- C16. For a selected rect of width and height at least 1: the top and
bottom handle rects are 15 thick and `yHandleWidth()` long, a length that is
non-negative and smaller than the width of the selection, and the gap on
their left differs from the gap on their right by at most 1; the left and
right handle rects are 15 thick and `xHandleHeight()` long, a length that is
non-negative and smaller than the height of the selection, and the gap above
them differs from the gap below them by at most 1; every corner handle rect
is 15 by 15. -/
theorem C16_edge_handles_centered (d : CropFramePrivate)
    (hW : 1 ≤ d.m_selected.width) (hH : 1 ≤ d.m_selected.height) :
    (d.topHandleRect.height = c_handleSize ∧ d.topHandleRect.width = d.yHandleWidth ∧
      d.bottomHandleRect.height = c_handleSize ∧ d.bottomHandleRect.width = d.yHandleWidth) ∧
    (0 ≤ d.yHandleWidth ∧ d.yHandleWidth < d.m_selected.width) ∧
    (|(d.topHandleRect.left - d.m_selected.left) -
        (d.m_selected.right - d.topHandleRect.right)| ≤ 1 ∧
      |(d.bottomHandleRect.left - d.m_selected.left) -
        (d.m_selected.right - d.bottomHandleRect.right)| ≤ 1) ∧
    (d.leftHandleRect.width = c_handleSize ∧ d.leftHandleRect.height = d.xHandleHeight ∧
      d.rightHandleRect.width = c_handleSize ∧ d.rightHandleRect.height = d.xHandleHeight) ∧
    (0 ≤ d.xHandleHeight ∧ d.xHandleHeight < d.m_selected.height) ∧
    (|(d.leftHandleRect.top - d.m_selected.top) -
        (d.m_selected.bottom - d.leftHandleRect.bottom)| ≤ 1 ∧
      |(d.rightHandleRect.top - d.m_selected.top) -
        (d.m_selected.bottom - d.rightHandleRect.bottom)| ≤ 1) ∧
    (d.topLeftHandleRect.width = c_handleSize ∧ d.topLeftHandleRect.height = c_handleSize ∧
      d.topRightHandleRect.width = c_handleSize ∧ d.topRightHandleRect.height = c_handleSize ∧
      d.bottomRightHandleRect.width = c_handleSize ∧
      d.bottomRightHandleRect.height = c_handleSize ∧
      d.bottomLeftHandleRect.width = c_handleSize ∧
      d.bottomLeftHandleRect.height = c_handleSize) := by
  have hWp : d.m_selected.width > 0 := by omega
  have hHp : d.m_selected.height > 0 := by omega
  simp only [abs_le]
  rcases d.edge_handle_metrics hW hH with ⟨ho, e1, e2, e3, e4⟩ | ⟨ho, h1, h2, e1, e2, e3, e4⟩ <;>
    simp only [topHandleRect, bottomHandleRect, leftHandleRect, rightHandleRect,
      topLeftHandleRect, topRightHandleRect, bottomRightHandleRect, bottomLeftHandleRect,
      ho, hWp, hHp, if_true, if_false, Bool.false_eq_true] <;>
    simp only [QRect.ofXYWH, QRect.width, QRect.height, QRect.left, QRect.right, QRect.top,
      QRect.bottom, QRect.x, QRect.y, c_handleSize] at * <;>
    omega

/-- Witness of C16: an 81 by 60 selection, with the handles inside. -/
theorem C16_edge_handles_centered_witness :
    1 ≤ (QRect.ofXYWH 10 10 81 60).width ∧ 1 ≤ (QRect.ofXYWH 10 10 81 60).height ∧
    (0 ≤ (CropFramePrivate.withSelection (QRect.ofXYWH 0 0 100 100)
          (QRect.ofXYWH 10 10 81 60)).yHandleWidth ∧
      (CropFramePrivate.withSelection (QRect.ofXYWH 0 0 100 100)
          (QRect.ofXYWH 10 10 81 60)).yHandleWidth < (QRect.ofXYWH 10 10 81 60).width) :=
  ⟨by decide, by decide,
    (C16_edge_handles_centered
      (CropFramePrivate.withSelection (QRect.ofXYWH 0 0 100 100) (QRect.ofXYWH 10 10 81 60))
      (by decide) (by decide)).2.1⟩

/-- C17. For a selected rect of width and height at least 1 no point lies in
two of the eight handle rects, in either placement. -/
theorem C17_handle_rects_disjoint (d : CropFramePrivate) (p : QPoint)
    (hW : 1 ≤ d.m_selected.width) (hH : 1 ≤ d.m_selected.height) :
    List.Pairwise (fun a b : QRect => ¬ (a.contains p = true ∧ b.contains p = true))
      [d.topLeftHandleRect, d.topHandleRect, d.topRightHandleRect, d.rightHandleRect,
        d.bottomRightHandleRect, d.bottomHandleRect, d.bottomLeftHandleRect,
        d.leftHandleRect] :=
  d.handleRects_pairwise p hW hH

/-- Witness of C17: a 20 by 20 selection, with the handles outside, and the
point (29, 30) at its lower right corner. -/
theorem C17_handle_rects_disjoint_witness :
    1 ≤ (QRect.ofXYWH 10 10 20 20).width ∧ 1 ≤ (QRect.ofXYWH 10 10 20 20).height ∧
    List.Pairwise
      (fun a b : QRect => ¬ (a.contains ⟨29, 30⟩ = true ∧ b.contains ⟨29, 30⟩ = true))
      [(CropFramePrivate.withSelection (QRect.ofXYWH 0 0 100 100)
          (QRect.ofXYWH 10 10 20 20)).topLeftHandleRect,
        (CropFramePrivate.withSelection (QRect.ofXYWH 0 0 100 100)
          (QRect.ofXYWH 10 10 20 20)).topHandleRect,
        (CropFramePrivate.withSelection (QRect.ofXYWH 0 0 100 100)
          (QRect.ofXYWH 10 10 20 20)).topRightHandleRect,
        (CropFramePrivate.withSelection (QRect.ofXYWH 0 0 100 100)
          (QRect.ofXYWH 10 10 20 20)).rightHandleRect,
        (CropFramePrivate.withSelection (QRect.ofXYWH 0 0 100 100)
          (QRect.ofXYWH 10 10 20 20)).bottomRightHandleRect,
        (CropFramePrivate.withSelection (QRect.ofXYWH 0 0 100 100)
          (QRect.ofXYWH 10 10 20 20)).bottomHandleRect,
        (CropFramePrivate.withSelection (QRect.ofXYWH 0 0 100 100)
          (QRect.ofXYWH 10 10 20 20)).bottomLeftHandleRect,
        (CropFramePrivate.withSelection (QRect.ofXYWH 0 0 100 100)
          (QRect.ofXYWH 10 10 20 20)).leftHandleRect] :=
  ⟨by decide, by decide,
    C17_handle_rects_disjoint
      (CropFramePrivate.withSelection (QRect.ofXYWH 0 0 100 100) (QRect.ofXYWH 10 10 20 20))
      ⟨29, 30⟩ (by decide) (by decide)⟩

/-- C18, evaluated at a failing input. For the selected rect of width 30 and
height 30 at (20, 20) the handles are placed outside; the bottom-left handle
rect, like the bottom handle rect, has its top at 49, the bottom-right handle
rect has its top at 50. -/
theorem C18_bottom_corners_misaligned :
    ({ CropFramePrivate.init (QRect.ofXYWH 0 0 200 200) with
        m_selected := QRect.ofXYWH 20 20 30 30, m_nothing := false } :
      CropFramePrivate).isHandleOutside = true ∧
    ({ CropFramePrivate.init (QRect.ofXYWH 0 0 200 200) with
        m_selected := QRect.ofXYWH 20 20 30 30, m_nothing := false } :
      CropFramePrivate).bottomLeftHandleRect.top = 49 ∧
    ({ CropFramePrivate.init (QRect.ofXYWH 0 0 200 200) with
        m_selected := QRect.ofXYWH 20 20 30 30, m_nothing := false } :
      CropFramePrivate).bottomHandleRect.top = 49 ∧
    ({ CropFramePrivate.init (QRect.ofXYWH 0 0 200 200) with
        m_selected := QRect.ofXYWH 20 20 30 30, m_nothing := false } :
      CropFramePrivate).bottomRightHandleRect.top = 50 := by
  decide

/-- C19. When the selection is non-empty and the available rect has positive
width and height, `cropped( available )` is the selected rect itself, and a
resize notification with the image rect equal to the available rect leaves
the stored selection, and the whole state of the widget, as it was. -/
theorem C19_cropped_available_is_selected (w : CropFrame)
    (hn : w.d.m_nothing = false)
    (hw : 0 < w.d.m_available.width) (hh : 0 < w.d.m_available.height) :
    w.d.cropped w.d.m_available = w.d.m_selected ∧
    (w.frameResized w.d.m_available).d.m_selected = w.d.m_selected ∧
    w.frameResized w.d.m_available = w := by
  have hx : ((w.d.m_available.x2 - w.d.m_available.x1 + 1 : Int) : ℚ) ≠ 0 := by
    have : w.d.m_available.x2 - w.d.m_available.x1 + 1 ≠ 0 := by
      simp only [QRect.width] at hw; omega
    exact_mod_cast this
  have hy : ((w.d.m_available.y2 - w.d.m_available.y1 + 1 : Int) : ℚ) ≠ 0 := by
    have : w.d.m_available.y2 - w.d.m_available.y1 + 1 ≠ 0 := by
      simp only [QRect.height] at hh; omega
    exact_mod_cast this
  have e : w.d.cropped w.d.m_available = w.d.m_selected := by
    rw [cropped_of_not_nothing w.d _ hn, div_self hx, div_self hy]
    simp only [mul_one, toInt_intCast]
    cases hs : w.d.m_selected with
    | mk s1 t1 s2 t2 =>
      simp only [QRect.mk.injEq]
      refine ⟨?_, ?_, ?_, ?_⟩ <;> omega
  refine ⟨e, e, ?_⟩
  simp only [CropFrame.frameResized, e]

/-- Witness of C19: a 50 by 30 selection in a 100 by 80 available rect. -/
theorem C19_cropped_available_is_selected_witness :
    0 < (QRect.ofXYWH 0 0 100 80).width ∧ 0 < (QRect.ofXYWH 0 0 100 80).height ∧
    ({ CropFramePrivate.init (QRect.ofXYWH 0 0 100 80) with
        m_selected := QRect.ofXYWH 10 20 50 30, m_nothing := false } :
      CropFramePrivate).cropped (QRect.ofXYWH 0 0 100 80) = QRect.ofXYWH 10 20 50 30 :=
  ⟨by decide, by decide,
    (C19_cropped_available_is_selected
      { d := { CropFramePrivate.init (QRect.ofXYWH 0 0 100 80) with
                m_selected := QRect.ofXYWH 10 20 50 30, m_nothing := false }
        app := QApplication.idle } rfl (by decide) (by decide)).1⟩

/-- C20. When the selection is non-empty and is the whole available rect, of
positive width and height, `cropped( full )` is `full`, for every image rect
`full`, and so is `cropRect()`. -/
theorem C20_whole_selection_maps_to_full (w : CropFrame) (full : QRect)
    (hn : w.d.m_nothing = false) (hsel : w.d.m_selected = w.d.m_available)
    (_hw : 0 < w.d.m_available.width) (_hh : 0 < w.d.m_available.height) :
    w.d.cropped full = full ∧ w.cropRect full = full := by
  have e : w.d.cropped full = full := by
    rw [cropped_of_not_nothing w.d _ hn, hsel]
    simp only [sub_self, Int.cast_zero, zero_mul]
    have z : toInt (0 : ℚ) = 0 := by
      have := toInt_intCast 0
      simpa using this
    rw [z]
    cases full
    simp
  exact ⟨e, e⟩

/-- Witness of C20: the whole of a 100 by 80 available rect is selected and
the image is 640 by 480. -/
theorem C20_whole_selection_maps_to_full_witness :
    (QRect.ofXYWH 0 0 100 80) = (QRect.ofXYWH 0 0 100 80) ∧
    0 < (QRect.ofXYWH 0 0 100 80).width ∧ 0 < (QRect.ofXYWH 0 0 100 80).height ∧
    CropFrame.cropRect
      { d := { CropFramePrivate.init (QRect.ofXYWH 0 0 100 80) with
                m_selected := QRect.ofXYWH 0 0 100 80, m_nothing := false }
        app := QApplication.idle } (QRect.ofXYWH 0 0 640 480) = QRect.ofXYWH 0 0 640 480 :=
  ⟨rfl, by decide, by decide,
    (C20_whole_selection_maps_to_full
      { d := { CropFramePrivate.init (QRect.ofXYWH 0 0 100 80) with
                m_selected := QRect.ofXYWH 0 0 100 80, m_nothing := false }
        app := QApplication.idle } (QRect.ofXYWH 0 0 640 480) rfl rfl
      (by decide) (by decide)).2⟩

end GifEditor
